import Mathlib

/-!
Verification of the `UThread` cooperative thread-lifecycle controller
(src/common/thread.hpp, src/common/thread.cpp) and its result type
(src/common/result.hpp, src/common/result.cpp).

The embedding models:
* the result/error-code type (`Result`, codes from result.hpp, with
  `Prepend` keeping the numeric code exactly as result.cpp:129-137 does);
* durations and time points as 64-bit nanosecond counts (`Int`), matching
  time_measures.hpp (`Duration` wraps `chrono::duration<int64_t, nano>`);
* the mutable fields of a `UThread` guarded by its state lock, plus a
  program counter `MPC` for the managed native thread recording at which
  condition-variable wait (if any) it is currently parked, and pending-signal
  flags for the condition variables it parks on;
* each public operation as the pure function computing the effect of its
  lock-held critical section, and `ProcState` cut into atomic segments at
  its condition waits;
* an interleaving small-step relation `Step` over these segments and the
  externally callable operations, with `Reachable` its reflexive-transitive
  closure from the freshly constructed object.

Messages attached to results reproduce the source strings except that
apostrophe characters are dropped.
-/

set_option linter.unusedVariables false

namespace Evo

/-- UThread::State (thread.hpp:31-64). -/
inductive TState
  | kInvalid
  | kInit
  | kGo
  | kIdle
  | kExiting
  | kExited
  deriving DecidableEq

/-- UThread::CycleWait (thread.hpp:78-100). -/
inductive CycleWait
  | kInvalid
  | kAbsolute
  | kRelative
  | kIndefinite
  deriving DecidableEq

/-- UThread::ProcStateResult (thread.hpp:549-553). -/
inductive ProcStateResult
  | kContinue
  | kExit
  deriving DecidableEq

/-- Result codes from result.hpp (namespace std_results, lines 236-306). -/
def SUCCESS_CODE : Int := 0

def INVALID_RESULT_CODE : Int := 1

def TIMED_OUT_CODE : Int := -600

def THREAD_RESTRICTION_CODE : Int := -1700

def NOT_REGISTERED_CODE : Int := -1800

def NOT_INIT_CODE : Int := -2000

def INVALID_ARGUMENT_CODE : Int := -3000

def SHUTTING_DOWN_CODE : Int := -3100

def DEADLOCK_AVERTED_CODE : Int := -3200

def NOT_IMPLEMENTED_CODE : Int := -3300

def STATE_ALREADY_EFFECTIVE_CODE : Int := -3400

def RESOURCE_UNAVAILABLE_CODE : Int := -3500

def INTERRUPTED_OPERATION_CODE : Int := -3600

/-- evo::Result (result.hpp): a numeric code plus an optional custom
message; `message_` stays absent until a textual message is stored. -/
structure Result where
  code : Int
  msg : Option String
  deriving DecidableEq

/-- Result::has_message (result.hpp:101-103): a custom, non-empty message
has been set. -/
def Result.has_message (r : Result) : Bool :=
  match r.msg with
  | none => false
  | some s => !s.isEmpty

/-- Result::is_success (result.cpp:86-89). -/
def Result.is_success (r : Result) : Bool :=
  r.code = SUCCESS_CODE

/-- Result::is_error (result.cpp:81-84). -/
def Result.is_error (r : Result) : Bool :=
  r.code ≠ INVALID_RESULT_CODE && r.code ≠ SUCCESS_CODE

/-- Result::operator== (result.cpp:60-72): compares codes, except that two
results both carrying the default code compare by message. -/
def Result.eq (a b : Result) : Bool :=
  if a.code = INVALID_RESULT_CODE && b.code = INVALID_RESULT_CODE then
    match a.msg, b.msg with
    | none, none => true
    | some x, some y => x = y
    | _, _ => false
  else
    a.code = b.code

/-- Const overload of Result::Prepend (result.cpp:129-137): builds a new
result with the SAME code and the message prefixed; if no custom message is
present the prefix becomes the whole message. -/
def Result.prepend (r : Result) (m : String) : Result :=
  if r.has_message then
    { code := r.code, msg := some (m ++ ": " ++ r.msg.getD "") }
  else
    { code := r.code, msg := some m }

/-- Built-in result constants (result.hpp:308-347) carry no custom message. -/
def mkres (c : Int) : Result := { code := c, msg := none }

def SUCCESS : Result := mkres SUCCESS_CODE

def INVALID_RESULT : Result := mkres INVALID_RESULT_CODE

def TIMED_OUT : Result := mkres TIMED_OUT_CODE

def THREAD_RESTRICTION : Result := mkres THREAD_RESTRICTION_CODE

def NOT_INIT : Result := mkres NOT_INIT_CODE

def INVALID_ARGUMENT : Result := mkres INVALID_ARGUMENT_CODE

def SHUTTING_DOWN : Result := mkres SHUTTING_DOWN_CODE

def DEADLOCK_AVERTED : Result := mkres DEADLOCK_AVERTED_CODE

def NOT_IMPLEMENTED : Result := mkres NOT_IMPLEMENTED_CODE

def STATE_ALREADY_EFFECTIVE : Result := mkres STATE_ALREADY_EFFECTIVE_CODE

def RESOURCE_UNAVAILABLE : Result := mkres RESOURCE_UNAVAILABLE_CODE

def INTERRUPTED_OPERATION : Result := mkres INTERRUPTED_OPERATION_CODE

/-- UThread::StateToString (thread.cpp:82-103). -/
def stateToString (s : TState) : String :=
  match s with
  | .kInvalid => "Invalid"
  | .kInit => "Initializing"
  | .kGo => "Run"
  | .kIdle => "Idle"
  | .kExiting => "Exiting"
  | .kExited => "Exited"

/-- Duration::Min() (time_measures.hpp:103): the smallest representable
64-bit nanosecond count, used as the block-forever sentinel. -/
def durationMin : Int := -9223372036854775808

/-- Control location of the managed native thread, identifying which
condition-variable wait inside thread.cpp (if any) it is parked at.
`cycleParked` records the sleep period passed to StateCondWaitFor at
thread.cpp:1225; `barrierParked` records the `handle_state_changed` flag and
pending ProcState return value live across the wait at thread.cpp:1424. -/
inductive MPC
  | notStarted
  | inBody
  | idleParked
  | cycleParked (sleep : Int)
  | pauseParked
  | barrierParked (handle : Bool) (res : ProcStateResult)
  | done
  deriving DecidableEq

/-- The mutable fields of a UThread guarded by its state lock
(thread.hpp:645-765), together with the managed thread location `mpc` and
pending-signal flags for the go and unpause condition variables.
`listener_fires` is a ghost counter incremented whenever the registered
state-change listeners are invoked (thread.cpp:1438-1442, 1608-1612). -/
structure UThread where
  thread_exists : Bool
  state : TState
  requested_state : TState
  prev_state : TState
  cycle_count : Int
  cycle_wait_type : CycleWait
  cycle_wait_period : Int
  cycle_wait_changed : Bool
  cycle_wait_skip_count : Int
  cycle_wait_skip_orig_state : TState
  prev_cycle_time_point : Int
  is_between_cycles : Bool
  is_joined_with_thread : Bool
  is_pause_pending : Bool
  is_paused : Bool
  multi_in_progress : Bool
  mpc : MPC
  goSignal : Bool
  unpauseSignal : Bool
  listener_fires : Int
  deriving DecidableEq

namespace UThread

/-- UThread::Init (thread.cpp:146-185): field values of a freshly
constructed UThread (before Start). -/
def initial : UThread :=
  { thread_exists := false
    state := .kInvalid
    requested_state := .kInvalid
    prev_state := .kInvalid
    cycle_count := 0
    cycle_wait_type := .kAbsolute
    cycle_wait_period := 0
    cycle_wait_changed := false
    cycle_wait_skip_count := 0
    cycle_wait_skip_orig_state := .kInvalid
    prev_cycle_time_point := 0
    is_between_cycles := false
    is_joined_with_thread := false
    is_pause_pending := false
    is_paused := false
    multi_in_progress := false
    mpc := .notStarted
    goSignal := false
    unpauseSignal := false
    listener_fires := 0 }

/-- UThread::is_state_changing (thread.hpp:231-233). -/
def is_state_changing (u : UThread) : Bool :=
  u.requested_state ≠ .kInvalid

/-- UThread::is_available (thread.hpp:263-267). -/
def is_available (u : UThread) : Bool :=
  u.state ≠ .kExiting && u.state ≠ .kExited
    && u.requested_state ≠ .kExiting && u.requested_state ≠ .kExited

/-- Whether the managed thread is parked on the go condition variable
(go_cond_), which is the case at the kIdle park (thread.cpp:1365) and at the
cycle-wait sleep (thread.cpp:1221, 1225). -/
def parkedOnGoCond : MPC → Bool
  | .idleParked => true
  | .cycleParked _ => true
  | _ => false

/-- The effect of go_cond_.notify_one (thread.cpp:349, 397): the signal is
delivered only if the managed thread is currently waiting on go_cond_,
otherwise it is lost (plain condition-variable semantics). -/
def notifyGoCond (u : UThread) : UThread :=
  if parkedOnGoCond u.mpc then { u with goSignal := true } else u

/-- UThread::Unpause (thread.cpp:883-918), lock-held effect. When the
thread is parked on unpause_cond_ the notify at thread.cpp:913 marks the
pending wake-up; clearing of is_paused_ is performed by the woken managed
thread itself (thread.cpp:1536). -/
def unpauseFn (u : UThread) : UThread × Result :=
  if ¬u.thread_exists then
    (u, NOT_INIT.prepend "UThread has not been started")
  else if ¬u.is_paused then
    if u.is_pause_pending then
      ({ u with is_pause_pending := false }, SUCCESS)
    else
      (u, STATE_ALREADY_EFFECTIVE.prepend "Thread isnt paused")
  else
    ({ u with unpauseSignal := true }, SUCCESS)

/-- Outcome of the entry portion of a potentially blocking call: either the
call returns without waiting, or it has recorded its effects and is about
to park on a condition variable. -/
inductive RSOut
  | ret (u : UThread) (r : Result)
  | wait (u : UThread)
  deriving DecidableEq

/-- True when the outcome is about to park (the caller blocks). -/
def RSOut.isWait : RSOut → Bool
  | .ret _ _ => false
  | .wait _ => true

/-- The UThread record carried by an outcome. -/
def RSOut.uthread : RSOut → UThread
  | .ret u _ => u
  | .wait u => u

/-- The result code returned by a non-waiting outcome. -/
def RSOut.retCode : RSOut → Option Int
  | .ret _ r => some r.code
  | .wait _ => none

/-- UThread::RequestState(State, Duration) (thread.cpp:262-450), translated
up to the first condition wait of the blocking path.  `timeout` follows the
source conventions: 0 means do not block, `durationMin` means block forever.
`is_current` is the value of is_current_thread().  The first iteration of the
blocking loop (thread.cpp:367-397) re-checks kExiting/kExited — both
already excluded here — and then records the request and parks, which is
the `wait` outcome. -/
def requestState (u : UThread) (newstate : TState) (timeout : Int)
    (is_current : Bool) : RSOut :=
  if ¬u.thread_exists then
    .ret u (NOT_INIT.prepend "UThread has not been started")
  else if newstate = .kInit then
    .ret u (INVALID_ARGUMENT.prepend
      "Init thread state cannot be directly requested")
  else if newstate = .kExited then
    .ret u (INVALID_ARGUMENT.prepend
      "Exited thread state cannot be directly requested")
  else if u.state = .kExited then
    .ret u (RESOURCE_UNAVAILABLE.prepend
      ("Thread has exited, ignoring request for new state "
        ++ stateToString newstate))
  else if u.state = .kExiting then
    if newstate = .kExiting then
      .ret u SUCCESS
    else
      .ret u (SHUTTING_DOWN.prepend
        ("Thread is exiting, ignoring request for new state "
          ++ stateToString newstate))
  else
    -- assert(!is_joined_with_thread_) at thread.cpp:309
    -- make sure we are not paused (thread.cpp:312-314)
    let u := if u.is_paused then (unpauseFn u).1 else u
    if (u.requested_state = .kExiting || u.requested_state = .kExited)
        && newstate ≠ .kExiting then
      .ret u (SHUTTING_DOWN.prepend
        ("Thread is exiting, cannot request new state "
          ++ stateToString newstate))
    else if newstate = u.state then
      -- cancel any other pending request, wake state_ready_cond waiters
      .ret { u with requested_state := .kInvalid } SUCCESS
    else if timeout = 0 then
      .ret (notifyGoCond { u with requested_state := newstate }) SUCCESS
    else if is_current then
      .ret u (DEADLOCK_AVERTED.prepend
        ("New thread state requested with blocking enabled, but target"
          ++ " thread == current thread"))
    else
      .wait (notifyGoCond { u with requested_state := newstate })

/-- ConsiderPause_locked (thread.cpp:1521-1538) as run at a ProcState return
site: when a pause is pending, the managed thread marks itself paused,
broadcasts paused_cond_ and parks on unpause_cond_; otherwise ProcState
returns and the managed thread is back in its body. -/
def pauseOrBody (u : UThread) : UThread :=
  if u.is_pause_pending then
    { u with is_pause_pending := false, is_paused := true, mpc := .pauseParked }
  else
    { u with mpc := .inBody }

/-- Wake from the unpause_cond_ park (thread.cpp:1534-1536): is_paused_ is
cleared by the managed thread itself and the ProcState return completes. -/
def pauseWake (u : UThread) : UThread :=
  { u with is_paused := false, unpauseSignal := false, mpc := .inBody }

/-- UThread::SetStateInternal (thread.cpp:1548-1552). -/
def setStateInternal (u : UThread) (new_state : TState) : UThread :=
  { u with prev_state := u.state, state := new_state }

/-- End of ProcState after the barrier section (thread.cpp:1436-1453):
fire the state-change listeners when a transition was applied, clear
is_between_cycles_, and run ConsiderPause_locked before returning. -/
def finishProc (u : UThread) (handle : Bool) : UThread :=
  let u := if handle then { u with listener_fires := u.listener_fires + 1 } else u
  pauseOrBody { u with is_between_cycles := false }

/-- ProcState from the multi-transition barrier section on
(thread.cpp:1405-1453): a thread participating in an in-flight
RequestStateMultiple parks on the shared barrier first. -/
def afterLoop (u : UThread) (handle : Bool) (res : ProcStateResult) : UThread :=
  if u.multi_in_progress then
    { u with mpc := .barrierParked handle res }
  else
    finishProc u handle

/-- Release from the barrier park (thread.cpp:1424-1432): the shared info is
cleared and ProcState completes. -/
def barrierRelease (u : UThread) (handle : Bool) : UThread :=
  finishProc { u with multi_in_progress := false } handle

/-- The state-application loop of ProcState (thread.cpp:1323-1402).  Its kGo
and kExiting cases complete in one pass; the kIdle case either defers to the
kGo case when a multi-transition is in progress (thread.cpp:1336-1350) or
parks indefinitely on go_cond_ (thread.cpp:1352-1374); requested kInvalid
leaves the loop.  Requested kInit/kExited would trip the defensive assertion
at thread.cpp:1394-1397 and are prevented by RequestState validation. -/
def applyLoop (u : UThread) : UThread :=
  match u.requested_state with
  | .kGo =>
    afterLoop (setStateInternal { u with requested_state := .kInvalid } .kGo)
      true .kContinue
  | .kIdle =>
    if u.multi_in_progress then
      -- the loop cycles around and lands in case State::kGo
      afterLoop (setStateInternal { u with requested_state := .kInvalid } .kGo)
        true .kContinue
    else
      { (setStateInternal { u with requested_state := .kInvalid } .kIdle) with
          mpc := .idleParked }
  | .kExiting =>
    afterLoop (setStateInternal { u with requested_state := .kInvalid } .kExiting)
      true .kExit
  | _ => afterLoop u false .kContinue

/-- ProcState from the requested-state dispatch on (thread.cpp:1314-1403):
when the pending state equals the current one it is only cleared, so no
transition side effects run (no listener invocation). -/
def applyPhase (u : UThread) : UThread :=
  if u.requested_state = u.state then
    afterLoop { u with requested_state := .kInvalid, is_between_cycles := false }
      false .kContinue
  else
    applyLoop u

/-- Wake from the kIdle park (thread.cpp:1365-1374) and re-entry into the
state-application loop.  The skip-count decrement is live only while the
(disabled) RunNCycles feature has activated the skip state. -/
def idleAwake (u : UThread) (now : Int) : UThread :=
  let u := { u with goSignal := false, prev_cycle_time_point := now }
  let u :=
    if u.cycle_wait_skip_orig_state ≠ .kInvalid then
      { u with cycle_wait_skip_count := u.cycle_wait_skip_count - 1 }
    else u
  applyLoop u

/-- Sleep period of one cycle-wait pass (thread.cpp:1193-1211).  For
kIndefinite the source never assigns sleep_period, which therefore keeps its
default-constructed value Duration(0) (time_measures.cpp:11-12), so the
kIndefinite branch at thread.cpp:1220-1223 is unreachable and no sleep
happens. -/
def cycleSleepPeriod (u : UThread) (now : Int) : Int :=
  if u.cycle_wait_type = .kRelative then
    u.cycle_wait_period
  else if u.cycle_wait_type = .kAbsolute then
    if now - u.prev_cycle_time_point ≥ u.cycle_wait_period then 0
    else u.cycle_wait_period - (now - u.prev_cycle_time_point)
  else
    0

/-- Outcome of the cycle-wait-skip bookkeeping (thread.cpp:1136-1178):
either ProcState returns kContinue at thread.cpp:1159 or control falls
through to the cycle-wait section. -/
inductive SkipOut
  | retContinue (u : UThread)
  | through (u : UThread)
  deriving DecidableEq

/-- Cycle-wait-skip bookkeeping (thread.cpp:1136-1178).  In the source the
ConsiderPause_locked call at thread.cpp:1156 precedes the decrement at
thread.cpp:1157; the two commute (they touch disjoint fields and
cycle_wait_skip_count_ has no public reader), so the decrement is applied
before `pauseOrBody` here. -/
def skipPhase (u : UThread) : SkipOut :=
  if u.cycle_wait_skip_orig_state ≠ .kInvalid then
    if u.requested_state = .kInvalid then
      if u.cycle_wait_skip_count > 0 then
        .retContinue (pauseOrBody
          { u with cycle_wait_skip_count := u.cycle_wait_skip_count - 1 })
      else
        if u.cycle_wait_skip_orig_state = .kIdle then
          .through { u with requested_state := .kIdle,
                            cycle_wait_skip_orig_state := .kInvalid }
        else
          .through { u with cycle_wait_skip_orig_state := .kInvalid }
    else
      .through { u with cycle_wait_skip_orig_state := .kInvalid,
                        cycle_wait_skip_count := 0 }
  else
    .through u

/-- Entry segment of UThread::ProcState (thread.cpp:1092-1312), from the
cycle-count increment up to the first condition wait, a kContinue return, or
the requested-state dispatch.  Preconditions from the source assertions:
the caller is the managed thread, mpc = inBody, thread_exists, and
state_ is not kIdle (thread.cpp:1103-1110). -/
def procEnter (u : UThread) (now : Int) : UThread :=
  let u := { u with cycle_count := u.cycle_count + 1 }
  if u.state = .kExiting then
    -- thread.cpp:1123-1134: already exiting, return kExit immediately
    pauseOrBody u
  else
    match skipPhase u with
    | .retContinue u => u
    | .through u =>
      let u := { u with is_between_cycles := true }
      if u.requested_state = .kInvalid then
        if u.cycle_wait_period > 0 || u.cycle_wait_type = .kIndefinite then
          let sleep := cycleSleepPeriod u now
          if sleep ≠ 0 then
            { u with cycle_wait_changed := false, mpc := .cycleParked sleep }
          else
            -- thread.cpp:1293-1299: no sleep needed this pass
            applyPhase { u with prev_cycle_time_point := now }
        else
          -- thread.cpp:1303-1311: no cycle wait configured
          pauseOrBody { u with is_between_cycles := false }
      else
        applyPhase u

/-- Timeout of the cycle-wait sleep (thread.cpp:1281-1291): no state was
requested, ProcState returns kContinue. -/
def cycleWakeTimeout (u : UThread) (now : Int) : UThread :=
  pauseOrBody { u with prev_cycle_time_point := now, is_between_cycles := false }

/-- Signalled wake of the cycle-wait sleep (thread.cpp:1233-1280): skip
bookkeeping, the (dead, since nothing ever sets it) cycle_wait_changed_
re-evaluation, then exit of the wait loop into the requested-state
dispatch with prev_cycle_time_point_ refreshed (thread.cpp:1298-1299). -/
def cycleWakeSignalled (u : UThread) (now : Int) : UThread :=
  let u := { u with goSignal := false }
  let u :=
    if u.cycle_wait_skip_orig_state ≠ .kInvalid then
      if u.requested_state = .kInvalid then
        { u with cycle_wait_skip_count := u.cycle_wait_skip_count - 1 }
      else
        { u with cycle_wait_skip_orig_state := .kInvalid,
                 cycle_wait_skip_count := 0 }
    else u
  if u.cycle_wait_changed then
    let u := { u with cycle_wait_changed := false }
    if u.cycle_wait_type = .kRelative
        || u.cycle_wait_skip_orig_state ≠ .kInvalid then
      applyPhase { u with prev_cycle_time_point := now }
    else
      let sleep := cycleSleepPeriod u now
      if sleep ≠ 0 then
        { u with mpc := .cycleParked sleep }
      else
        applyPhase { u with prev_cycle_time_point := now }
  else
    applyPhase { u with prev_cycle_time_point := now }

/-- Tail of UThread::_mainThreadFunc (thread.cpp:1594-1628), run when the
user-supplied thread function returns: the exit listeners are invoked, the
state becomes kExited, and thread_ is reset, so thread_exists() is false
afterwards. -/
def bodyReturn (u : UThread) : UThread :=
  { (setStateInternal { u with listener_fires := u.listener_fires + 1 } .kExited)
      with thread_exists := false, mpc := .done }

/-- UThread::Start / InitThread (thread.cpp:187-205, 230-250): spawns the
native thread, with state_ = kInit and requested_state_ = kIdle.  Note that
nothing prevents a second Start after the thread has exited and released its
handle (thread.cpp:1626 resets thread_). -/
def startFn (u : UThread) : UThread × Result :=
  if u.thread_exists then
    (u, STATE_ALREADY_EFFECTIVE.prepend "UThread has already been started")
  else
    ({ u with state := .kInit, requested_state := .kIdle,
              thread_exists := true, mpc := .inBody }, SUCCESS)

/-- UThread::Pause (thread.cpp:830-881), lock-held effect on the fields; the
caller-side wait on paused_cond_ (thread.cpp:856-876) suspends only the
caller. -/
def pauseFn (u : UThread) : UThread × Result :=
  if ¬u.thread_exists then
    (u, NOT_INIT.prepend "UThread has not been started")
  else if u.is_paused then
    (u, STATE_ALREADY_EFFECTIVE.prepend "Thread is already paused")
  else if ¬u.is_available then
    (u, RESOURCE_UNAVAILABLE.prepend "Thread has exited")
  else
    ({ u with is_pause_pending := true }, SUCCESS)

/-- UThread::RequestStateMultiple_Prepare (thread.cpp:1540-1546) together
with RequestStateMultipleInfo::Activate (thread.hpp:122-128). -/
def prepareMulti (u : UThread) : UThread :=
  { u with multi_in_progress := true }

/-- UThread::JoinInternal (thread.cpp:1554-1569); asserts state_ == kExited. -/
def joinInternalFn (u : UThread) : UThread :=
  { u with is_joined_with_thread := true }

/-- UThread::RunNCycles (thread.cpp:642-728).  The function is explicitly
disabled: its first statement returns NOT_IMPLEMENTED (thread.cpp:644-646),
so none of the skip-count machinery below it ever runs. -/
def runNCycles (u : UThread) (n_cycles : Int) (block : Bool) : UThread × Result :=
  (u, NOT_IMPLEMENTED.prepend "UThread::RunNCycles()")

/-- UThread::RunOneCycle (thread.cpp:637-640). -/
def runOneCycle (u : UThread) (block : Bool) : UThread × Result :=
  runNCycles u 1 block

/-- UThread::StateCondWaitFor on go_cond_ (thread.cpp:949-962, 964-1017) as
observed by Sleep: a zero wait period returns SUCCESS without waiting
(thread.cpp:952-954); otherwise the wait returns SUCCESS when go_cond_ was
signalled before the period expired (`woken` — in thread.cpp the only
notifiers of go_cond_ are the RequestState paths at lines 349 and 397) and a
prepended TIMED_OUT on expiry (thread.cpp:1012-1014). -/
def stateCondWaitForGo (wait_period : Int) (woken : Bool) : Result :=
  if wait_period = 0 then SUCCESS
  else if wait_period = durationMin then SUCCESS
  else if woken then SUCCESS
  else TIMED_OUT.prepend "Timed out while waiting for thread condition"

/-- UThread::Sleep (thread.cpp:1043-1090).  `is_current` is whether the
caller is the managed thread itself; `woken_early` is whether a state
request signalled go_cond_ during a timed sleep. -/
def sleepFn (u : UThread) (max_duration : Int) (is_current : Bool)
    (woken_early : Bool) : Result :=
  if ¬u.thread_exists then
    NOT_INIT.prepend "UThread has not been started"
  else if ¬is_current then
    THREAD_RESTRICTION.prepend
      "UThread::Sleep() can be invoked only by the UThread process on itself"
  else if u.is_state_changing then
    INTERRUPTED_OPERATION.prepend "Thread state change is pending, not sleeping"
  else if max_duration = durationMin then
    -- indefinite sleep: StateCondWait returns only when signalled
    INTERRUPTED_OPERATION
  else
    let res := stateCondWaitForGo max_duration woken_early
    if ¬(Result.eq TIMED_OUT res) then
      res.prepend "Thread sleep was interrupted"
    else
      SUCCESS

/-- Outcome of the entry portion of UThread::Exit. -/
inductive ExitOut
  | ret (u : UThread) (r : Result)
  | requestPhase (u : UThread)
  deriving DecidableEq

/-- UThread::Exit (thread.cpp:574-604): already-joined and already-kExited
threads return SUCCESS without issuing any request; otherwise control
proceeds to the RequestState(kExiting)/StateWait(kExited) block
(thread.cpp:588-598), summarized as `requestPhase`. -/
def exitEntry (u : UThread) : ExitOut :=
  if u.is_joined_with_thread then .ret u SUCCESS
  else if u.state ≠ .kExited then .requestPhase u
  else .ret u SUCCESS

/-- Interleaving small-step semantics of one UThread object: each
constructor is one atomic lock-held segment, either of an externally
callable operation or of the managed thread itself between two of its
condition waits.  Guards named `h...` come from the corresponding source
assertions or entry checks.  RunNCycles contributes no step because it
returns NOT_IMPLEMENTED before touching any field. -/
inductive Step : UThread → UThread → Prop
  | start (u : UThread) :
      Step u (startFn u).1
  | request (u : UThread) (s : TState) (t : Int) (c : Bool) :
      Step u (requestState u s t c).uthread
  | requestLoopAgain (u : UThread) (s : TState)
      (hv : s ≠ .kInit ∧ s ≠ .kExited)
      (hs : u.state ≠ .kExiting ∧ u.state ≠ .kExited ∧ s ≠ u.state) :
      Step u (notifyGoCond { u with requested_state := s })
  | pause (u : UThread) :
      Step u (pauseFn u).1
  | unpause (u : UThread) :
      Step u (unpauseFn u).1
  | prepare (u : UThread) (h : u.is_available = true) :
      Step u (prepareMulti u)
  | setCycleType (u : UThread) (t : CycleWait) :
      Step u { u with cycle_wait_type := t }
  | setCyclePeriod (u : UThread) (p : Int) :
      Step u { u with cycle_wait_period := p }
  | join (u : UThread) (h : u.state = .kExited) :
      Step u (joinInternalFn u)
  | procEnterStep (u : UThread) (now : Int)
      (h1 : u.mpc = .inBody) (h2 : u.thread_exists = true)
      (h3 : u.state ≠ .kIdle) :
      Step u (procEnter u now)
  | idleAwakeStep (u : UThread) (now : Int)
      (h1 : u.mpc = .idleParked) (h2 : u.goSignal = true) :
      Step u (idleAwake u now)
  | cycleTimeoutStep (u : UThread) (s : Int) (now : Int)
      (h1 : u.mpc = .cycleParked s) :
      Step u (cycleWakeTimeout u now)
  | cycleSignalStep (u : UThread) (s : Int) (now : Int)
      (h1 : u.mpc = .cycleParked s) (h2 : u.goSignal = true) :
      Step u (cycleWakeSignalled u now)
  | pauseWakeStep (u : UThread)
      (h1 : u.mpc = .pauseParked) (h2 : u.unpauseSignal = true) :
      Step u (pauseWake u)
  | barrierReleaseStep (u : UThread) (handle : Bool) (res : ProcStateResult)
      (h : u.mpc = .barrierParked handle res) :
      Step u (barrierRelease u handle)
  | bodyReturnStep (u : UThread)
      (h1 : u.mpc = .inBody) (h2 : u.thread_exists = true) :
      Step u (bodyReturn u)

/-- States reachable from a freshly constructed UThread. -/
def Reachable (u : UThread) : Prop :=
  Relation.ReflTransGen Step UThread.initial u

/-- Reachability invariant of the step system.  The skip and
cycle_wait_changed fields are inert because RunNCycles is disabled and
nothing sets cycle_wait_changed_; the mpc clauses tie the managed thread
location to the observable state. -/
structure Inv (u : UThread) : Prop where
  skip_orig : u.cycle_wait_skip_orig_state = .kInvalid
  skip_count : u.cycle_wait_skip_count = 0
  wait_changed : u.cycle_wait_changed = false
  req_ok : u.requested_state ≠ .kInit ∧ u.requested_state ≠ .kExited
  exists_iff : u.thread_exists = false ↔ (u.mpc = .notStarted ∨ u.mpc = .done)
  not_started : u.mpc = .notStarted → u.state = .kInvalid
  done_iff : u.mpc = .done ↔ u.state = .kExited
  idle_mpc : u.mpc = .idleParked → u.state = .kIdle
  cycle_mpc : ∀ s : Int, u.mpc = .cycleParked s →
    (u.state = .kInit ∨ u.state = .kGo)
  invalid_state : u.state = .kInvalid → u.mpc = .notStarted

/-- The state-transition edges actually possible for a `Step` of the code:
the documented edges plus direct transitions out of kInit (a request can be
recorded before the first ProcState call, and the body can return before
it), transitions into kExited from any live state (the body may return
spontaneously), and re-initialization of an exited thread by a second
Start() (thread.cpp:1626 resets thread_, so the Start guard at
thread.cpp:241 passes again). -/
def codeEdgeB : TState → TState → Bool
  | .kInvalid, .kInit => true
  | .kExited, .kInit => true
  | .kInit, .kIdle => true
  | .kInit, .kGo => true
  | .kInit, .kExiting => true
  | .kInit, .kExited => true
  | .kIdle, .kGo => true
  | .kIdle, .kExiting => true
  | .kIdle, .kExited => true
  | .kGo, .kIdle => true
  | .kGo, .kExiting => true
  | .kGo, .kExited => true
  | .kExiting, .kExited => true
  | _, _ => false

/-- The edge set enumerated by the specification diagram:
Invalid-Init, Init-Idle, Idle-Go, Go-Idle, Go-Exiting, Idle-Exiting,
Exiting-Exited. -/
def specClaimedEdge : TState → TState → Bool
  | .kInvalid, .kInit => true
  | .kInit, .kIdle => true
  | .kIdle, .kGo => true
  | .kGo, .kIdle => true
  | .kGo, .kExiting => true
  | .kIdle, .kExiting => true
  | .kExiting, .kExited => true
  | _, _ => false

/-- The two guarantees of one transition claimed in §4.1/§8 of the
specification, amended to the edges the code actually takes: states in
kExiting only advance to kExited, states in kExited change only through
re-initialization by a fresh Start(), and every observable state change
follows a `codeEdgeB` edge. -/
def StepSpec (u v : UThread) : Prop :=
  (u.state = .kExiting → v.state = .kExiting ∨ v.state = .kExited) ∧
  (u.state = .kExited → v.state = .kExited ∨ v.state = .kInit) ∧
  (u.state ≠ v.state → codeEdgeB u.state v.state = true)

/-- Common shape of one managed-thread ProcState segment `v` relative to its
pre-state `u`: the fields outside the write set of the segment are preserved,
the requested state is either consumed or untouched, the managed thread
ends up at one of the in-ProcState locations or back in the body, and any
state mutation goes through SetStateInternal with kGo, kIdle or kExiting. -/
def ProcSeg (u v : UThread) : Prop :=
  v.thread_exists = u.thread_exists ∧
  v.cycle_wait_skip_orig_state = u.cycle_wait_skip_orig_state ∧
  v.cycle_wait_skip_count = u.cycle_wait_skip_count ∧
  v.cycle_wait_changed = u.cycle_wait_changed ∧
  (v.requested_state = .kInvalid ∨ v.requested_state = u.requested_state) ∧
  (v.mpc = .inBody ∨ v.mpc = .pauseParked ∨ v.mpc = .idleParked ∨
    (∃ s : Int, v.mpc = .cycleParked s) ∨
    (∃ hh rr, v.mpc = .barrierParked hh rr)) ∧
  (v.mpc = .idleParked → v.state = .kIdle) ∧
  (∀ s : Int, v.mpc = .cycleParked s → v.state = u.state ∧ u.state ≠ .kExiting) ∧
  (v.state ≠ u.state →
    (v.state = .kGo ∨ v.state = .kIdle ∨ v.state = .kExiting)) ∧
  (u.state = .kExiting → v.state = .kExiting)

namespace Barrier

/-- Location of one RequestStateMultiple(kGo) participant relative to the
shared barrier reached inside its ProcState (thread.cpp:1410-1433). -/
inductive PPC
  | running
  | waiting
  | released
  deriving DecidableEq

/-- Location of the coordinator thread inside RequestStateMultiple
(thread.cpp:482-547): it acquires go_state_ready_mutex before issuing any
request and holds it until it parks on (or skips) go_state_ready_cond. -/
inductive CPC
  | holding
  | waiting
  | released
  deriving DecidableEq

/-- Shared state of one synchronized Go transition over `n` participating
threads: the pending count (thread.cpp:464, set to the participant count at
thread.cpp:511), each participant location, and the coordinator location. -/
structure Sys (n : Nat) where
  count : Int
  ppc : Fin n → PPC
  cpc : CPC

/-- Configuration right after the preparation loop: every participant still
has to reach the barrier and the coordinator holds the barrier mutex. -/
def Sys.start (n : Nat) : Sys n :=
  { count := (n : Int), ppc := fun _ => .running, cpc := .holding }

/-- Effect of go_cond_p notify_all on a parked participant. -/
def releaseAll (p : PPC) : PPC :=
  if p = .waiting then .released else p

/-- One participant reaches the barrier in its ProcState
(thread.cpp:1414-1431): with go_mutex held it decrements the pending count;
if the count is still nonzero it parks on the condition variable, otherwise
it broadcasts, releasing every parked participant and the waiting
coordinator. -/
def arrive {n : Nat} (s : Sys n) (i : Fin n) : Sys n :=
  let c := s.count - 1
  if c ≠ 0 then
    { s with count := c, ppc := Function.update s.ppc i .waiting }
  else
    { count := c,
      ppc := fun j => if j = i then .released else releaseAll (s.ppc j),
      cpc := if s.cpc = .waiting then .released else s.cpc }

/-- The coordinator wait decision (thread.cpp:535-547): with the mutex held
it parks on go_state_ready_cond when the pending count is positive, else it
proceeds; either way the mutex is released for the participants. -/
def coordWait {n : Nat} (s : Sys n) : Sys n :=
  if s.count > 0 then { s with cpc := .waiting } else { s with cpc := .released }

/-- Interleaving steps of the barrier protocol.  A participant can decrement
only once it can acquire go_mutex, i.e. once the coordinator has stopped
holding it. -/
inductive BStep {n : Nat} : Sys n → Sys n → Prop
  | arrive (s : Sys n) (i : Fin n) (hp : s.ppc i = .running)
      (hc : s.cpc ≠ .holding) : BStep s (arrive s i)
  | coord (s : Sys n) (hc : s.cpc = .holding) : BStep s (coordWait s)

/-- Barrier configurations reachable from the post-preparation start. -/
def BReach (n : Nat) (s : Sys n) : Prop :=
  Relation.ReflTransGen BStep (Sys.start n) s

/-- Number of participants that have not yet decremented the shared count. -/
def runningCount {n : Nat} (s : Sys n) : Nat :=
  (Finset.univ.filter (fun i => s.ppc i = PPC.running)).card

/-- Invariant of the barrier protocol: the pending count equals the number
of participants that have not yet decremented it, and anybody released —
participant or coordinator — saw the count reach zero. -/
structure BInv {n : Nat} (s : Sys n) : Prop where
  count_eq : s.count = (runningCount s : Int)
  rel_part : ∀ i, s.ppc i = .released → s.count = 0
  rel_coord : s.cpc = .released → s.count = 0

end Barrier

/-- The preparation loop of RequestStateMultiple (thread.cpp:482-512): each
available thread is activated as a barrier participant; threads that are
exiting or have exited are skipped and recorded as failures. -/
def prepareLoop : List UThread → List UThread × List (UThread × Result)
  | [] => ([], [])
  | t :: rest =>
    let pr := prepareLoop rest
    if t.is_available then
      (prepareMulti t :: pr.1, pr.2)
    else
      (pr.1,
        (t, SHUTTING_DOWN.prepend
          ("[RequestStateMultiple] Cannot set target thread state to Run,"
            ++ " thread is exiting or has exited.")) :: pr.2)

/-- Example configurations used by the witness and counterexample
theorems: concrete UThread records at interesting points of the lifecycle. -/
def exStarted : UThread :=
  { initial with thread_exists := true }

/-- Started thread currently in kGo. -/
def exGo : UThread :=
  { initial with thread_exists := true, state := .kGo, mpc := .inBody }

/-- Started thread currently kExiting. -/
def exExiting : UThread :=
  { initial with thread_exists := true, state := .kExiting, mpc := .inBody }

/-- Started thread right after a non-blocking Start: state kInit with the
kIdle request recorded by InitThread still pending. -/
def exInitPending : UThread :=
  { initial with
      thread_exists := true
      state := .kInit
      requested_state := .kIdle
      mpc := .inBody }

/-- Started kGo thread that is paused (parked on unpause_cond_). -/
def exPausedGo : UThread :=
  { initial with
      thread_exists := true
      state := .kGo
      is_paused := true
      mpc := .pauseParked }

/-- Started kGo thread participating in a multi-transition, with a
concurrently recorded kIdle request. -/
def exMultiGo : UThread :=
  { initial with
      thread_exists := true
      state := .kGo
      requested_state := .kIdle
      multi_in_progress := true
      mpc := .inBody }

/-- Started kGo thread with an Absolute cycle wait of 1000 ns whose
previous checkpoint completed its sleep at instant 0. -/
def exAbsolute : UThread :=
  { initial with
      thread_exists := true
      state := .kGo
      cycle_wait_type := .kAbsolute
      cycle_wait_period := 1000
      mpc := .inBody }

/-- Started thread parked kIdle. -/
def exIdle : UThread :=
  { initial with thread_exists := true, state := .kIdle, mpc := .idleParked }

/-! Helper lemmas: each managed-thread segment satisfies `ProcSeg`. -/

theorem ProcSeg_pre (u u' v : UThread)
    (h : ProcSeg u' v)
    (hs : u'.state = u.state) (hr : u'.requested_state = u.requested_state)
    (ht : u'.thread_exists = u.thread_exists)
    (h1 : u'.cycle_wait_skip_orig_state = u.cycle_wait_skip_orig_state)
    (h2 : u'.cycle_wait_skip_count = u.cycle_wait_skip_count)
    (h3 : u'.cycle_wait_changed = u.cycle_wait_changed) :
    ProcSeg u v := by
  unfold ProcSeg at h ⊢
  rw [hs, hr, ht, h1, h2, h3] at h
  exact h

theorem pauseOrBody_seg (u : UThread) : ProcSeg u (pauseOrBody u) := by
  unfold ProcSeg pauseOrBody
  split <;> simp

theorem finishProc_seg (u : UThread) (handle : Bool) :
    ProcSeg u (finishProc u handle) := by
  rcases handle <;> rcases hp : u.is_pause_pending <;>
    simp_all [ProcSeg, finishProc, pauseOrBody]

theorem afterLoop_seg (u : UThread) (handle : Bool) (res : ProcStateResult) :
    ProcSeg u (afterLoop u handle res) := by
  unfold afterLoop
  split
  · unfold ProcSeg
    simp
  · exact finishProc_seg u handle

theorem applyLoop_seg (u : UThread) (hst : u.state ≠ .kExiting) :
    ProcSeg u (applyLoop u) := by
  rcases hm : u.multi_in_progress <;> rcases hp : u.is_pause_pending <;>
    rcases hreq : u.requested_state <;> rcases hs : u.state <;>
      simp_all [ProcSeg, applyLoop, afterLoop, finishProc,
        pauseOrBody, setStateInternal]

theorem applyPhase_seg (u : UThread) (hst : u.state ≠ .kExiting) :
    ProcSeg u (applyPhase u) := by
  rcases hm : u.multi_in_progress <;> rcases hp : u.is_pause_pending <;>
    rcases hreq : u.requested_state <;> rcases hs : u.state <;>
      simp_all [ProcSeg, applyPhase, applyLoop, afterLoop, finishProc,
        pauseOrBody, setStateInternal]

theorem skipPhase_through (v : UThread)
    (hv : v.cycle_wait_skip_orig_state = .kInvalid) :
    skipPhase v = .through v := by
  unfold skipPhase
  simp [hv]

theorem procEnter_seg (u : UThread) (now : Int)
    (ho : u.cycle_wait_skip_orig_state = .kInvalid)
    (hw : u.cycle_wait_changed = false) :
    ProcSeg u (procEnter u now) := by
  have ho' : ({ u with cycle_count := u.cycle_count + 1 }
      : UThread).cycle_wait_skip_orig_state = .kInvalid := ho
  simp only [procEnter, skipPhase_through _ ho']
  split
  case isTrue hex =>
    exact ProcSeg_pre u _ _ (pauseOrBody_seg _) rfl rfl rfl rfl rfl rfl
  case isFalse hex =>
    split
    case isTrue hreq =>
      split
      case isTrue hcw =>
        split
        case isTrue hsl =>
          simp_all [ProcSeg]
        case isFalse hsl =>
          exact ProcSeg_pre u _ _ (applyPhase_seg _ (by simpa using hex))
            rfl rfl rfl rfl rfl rfl
      case isFalse hcw =>
        exact ProcSeg_pre u _ _ (pauseOrBody_seg _) rfl rfl rfl rfl rfl rfl
    case isFalse hreq =>
      exact ProcSeg_pre u _ _ (applyPhase_seg _ (by simpa using hex))
        rfl rfl rfl rfl rfl rfl

theorem idleAwake_eq (u : UThread) (now : Int)
    (ho : u.cycle_wait_skip_orig_state = .kInvalid) :
    idleAwake u now =
      applyLoop { u with goSignal := false, prev_cycle_time_point := now } := by
  unfold idleAwake
  simp [ho]

theorem idleAwake_seg (u : UThread) (now : Int)
    (ho : u.cycle_wait_skip_orig_state = .kInvalid)
    (hst : u.state ≠ .kExiting) :
    ProcSeg u (idleAwake u now) := by
  rw [idleAwake_eq u now ho]
  exact ProcSeg_pre u _ _ (applyLoop_seg _ (by simpa using hst))
    rfl rfl rfl rfl rfl rfl

theorem cycleWakeTimeout_seg (u : UThread) (now : Int) :
    ProcSeg u (cycleWakeTimeout u now) :=
  ProcSeg_pre u _ _ (pauseOrBody_seg _) rfl rfl rfl rfl rfl rfl

theorem cycleWakeSignalled_eq (u : UThread) (now : Int)
    (ho : u.cycle_wait_skip_orig_state = .kInvalid)
    (hw : u.cycle_wait_changed = false) :
    cycleWakeSignalled u now =
      applyPhase { u with goSignal := false, prev_cycle_time_point := now } := by
  unfold cycleWakeSignalled
  simp [ho, hw]

theorem cycleWakeSignalled_seg (u : UThread) (now : Int)
    (ho : u.cycle_wait_skip_orig_state = .kInvalid)
    (hw : u.cycle_wait_changed = false)
    (hst : u.state ≠ .kExiting) :
    ProcSeg u (cycleWakeSignalled u now) := by
  rw [cycleWakeSignalled_eq u now ho hw]
  exact ProcSeg_pre u _ _ (applyPhase_seg _ (by simpa using hst))
    rfl rfl rfl rfl rfl rfl

theorem barrierRelease_seg (u : UThread) (handle : Bool) :
    ProcSeg u (barrierRelease u handle) :=
  ProcSeg_pre u _ _ (finishProc_seg _ handle) rfl rfl rfl rfl rfl rfl

theorem pauseWake_seg (u : UThread) : ProcSeg u (pauseWake u) := by
  simp [ProcSeg, pauseWake]

theorem pauseOrBody_mpc (u : UThread) :
    (pauseOrBody u).mpc = .inBody ∨ (pauseOrBody u).mpc = .pauseParked := by
  unfold pauseOrBody
  split <;> simp

theorem finishProc_mpc (u : UThread) (handle : Bool) :
    (finishProc u handle).mpc = .inBody ∨ (finishProc u handle).mpc = .pauseParked := by
  rcases handle <;> rcases hp : u.is_pause_pending <;>
    simp_all [finishProc, pauseOrBody]

theorem applyLoop_no_cyclePark (u : UThread) (s : Int) :
    (applyLoop u).mpc ≠ .cycleParked s := by
  rcases hm : u.multi_in_progress <;> rcases hp : u.is_pause_pending <;>
    rcases hreq : u.requested_state <;>
      simp_all [applyLoop, afterLoop, finishProc, pauseOrBody, setStateInternal]

/-! Invariant preservation helpers. -/

theorem Inv_congr (u v : UThread) (hI : Inv u)
    (h1 : v.cycle_wait_skip_orig_state = u.cycle_wait_skip_orig_state)
    (h2 : v.cycle_wait_skip_count = u.cycle_wait_skip_count)
    (h3 : v.cycle_wait_changed = u.cycle_wait_changed)
    (h4 : v.requested_state = u.requested_state)
    (h5 : v.thread_exists = u.thread_exists)
    (h6 : v.mpc = u.mpc)
    (h7 : v.state = u.state) : Inv v := by
  constructor
  · rw [h1]; exact hI.skip_orig
  · rw [h2]; exact hI.skip_count
  · rw [h3]; exact hI.wait_changed
  · rw [h4]; exact hI.req_ok
  · rw [h5, h6]; exact hI.exists_iff
  · rw [h6, h7]; exact hI.not_started
  · rw [h6, h7]; exact hI.done_iff
  · rw [h6, h7]; exact hI.idle_mpc
  · rw [h6, h7]; exact hI.cycle_mpc
  · rw [h6, h7]; exact hI.invalid_state

theorem StepSpec_of_state_eq (u v : UThread) (h : v.state = u.state) :
    StepSpec u v := by
  refine ⟨fun hs => Or.inl (h.trans hs), fun hs => Or.inl (h.trans hs), ?_⟩
  intro hne; exact absurd h.symm hne

theorem Inv_of_seg (u v : UThread) (hI : Inv u) (hseg : ProcSeg u v)
    (hmpc1 : u.mpc ≠ .notStarted) (hmpc2 : u.mpc ≠ .done)
    (hcyc : ∀ s : Int, v.mpc = .cycleParked s →
      u.state = .kInit ∨ u.state = .kGo) : Inv v := by
  obtain ⟨h1, h2, h3, h4, h5, h6, h7, h8, h9, h10⟩ := hseg
  have hte : u.thread_exists = true := by
    rcases hte : u.thread_exists
    · exfalso
      rcases hI.exists_iff.mp hte with h | h
      · exact hmpc1 h
      · exact hmpc2 h
    · rfl
  have hnex : u.state ≠ .kExited := fun hs => hmpc2 (hI.done_iff.mpr hs)
  have hvmpc1 : v.mpc ≠ .notStarted := by
    rcases h6 with h | h | h | ⟨s, h⟩ | ⟨hh, rr, h⟩ <;> simp [h]
  have hvmpc2 : v.mpc ≠ .done := by
    rcases h6 with h | h | h | ⟨s, h⟩ | ⟨hh, rr, h⟩ <;> simp [h]
  have hvnex : v.state ≠ .kExited := by
    by_cases hch : v.state = u.state
    · rw [hch]; exact hnex
    · rcases h9 hch with h | h | h <;> simp [h]
  constructor
  · rw [h2]; exact hI.skip_orig
  · rw [h3]; exact hI.skip_count
  · rw [h4]; exact hI.wait_changed
  · rcases h5 with h | h
    · simp [h]
    · rw [h]; exact hI.req_ok
  · rw [h1, hte]
    constructor
    · intro hc; cases hc
    · intro hc
      rcases hc with hc | hc
      · exact absurd hc hvmpc1
      · exact absurd hc hvmpc2
  · intro hc; exact absurd hc hvmpc1
  · constructor
    · intro hc; exact absurd hc hvmpc2
    · intro hc; exact absurd hc hvnex
  · exact h7
  · intro s hs
    rcases hcyc s hs with h | h
    · rw [(h8 s hs).1, h]; exact Or.inl rfl
    · rw [(h8 s hs).1, h]; exact Or.inr rfl
  · intro hc
    by_cases hch : v.state = u.state
    · exact absurd (hI.invalid_state (hch ▸ hc)) hmpc1
    · rcases h9 hch with h | h | h <;> rw [h] at hc <;> cases hc

theorem StepSpec_of_seg (u v : UThread) (hI : Inv u) (hseg : ProcSeg u v)
    (hmpc1 : u.mpc ≠ .notStarted) (hmpc2 : u.mpc ≠ .done) :
    StepSpec u v := by
  obtain ⟨h1, h2, h3, h4, h5, h6, h7, h8, h9, h10⟩ := hseg
  have hnex : u.state ≠ .kExited := fun hs => hmpc2 (hI.done_iff.mpr hs)
  have hninv : u.state ≠ .kInvalid := fun hs => hmpc1 (hI.invalid_state hs)
  refine ⟨fun hs => Or.inl (h10 hs), fun hs => absurd hs hnex, ?_⟩
  intro hne
  have hu : u.state = .kInit ∨ u.state = .kGo ∨ u.state = .kIdle := by
    rcases hs : u.state
    · exact absurd hs hninv
    · exact Or.inl rfl
    · exact Or.inr (Or.inl rfl)
    · exact Or.inr (Or.inr rfl)
    · exact absurd (h10 hs) (by rw [hs] at hne; exact fun hv => hne hv.symm)
    · exact absurd hs hnex
  have hv := h9 (fun hv => hne hv.symm)
  rcases hu with h | h | h <;> rcases hv with h' | h' | h' <;>
    rw [h, h'] <;> first | rfl | (exfalso; rw [h, h'] at hne; exact hne rfl)

/-- The record effects of RequestState (any outcome): only requested_state
and the two signal flags are ever written, and requested_state is written
only to kInvalid or to a target that passed validation. -/
theorem requestState_record (u : UThread) (s : TState) (t : Int) (c : Bool) :
    (requestState u s t c).uthread.state = u.state ∧
    (requestState u s t c).uthread.thread_exists = u.thread_exists ∧
    (requestState u s t c).uthread.mpc = u.mpc ∧
    (requestState u s t c).uthread.cycle_wait_skip_orig_state
      = u.cycle_wait_skip_orig_state ∧
    (requestState u s t c).uthread.cycle_wait_skip_count
      = u.cycle_wait_skip_count ∧
    (requestState u s t c).uthread.cycle_wait_changed = u.cycle_wait_changed ∧
    ((requestState u s t c).uthread.requested_state = u.requested_state ∨
      (requestState u s t c).uthread.requested_state = .kInvalid ∨
      ((requestState u s t c).uthread.requested_state = s ∧
        s ≠ .kInit ∧ s ≠ .kExited)) := by
  unfold requestState
  by_cases h1 : u.thread_exists = false
  · simp [h1, RSOut.uthread]
  · simp only [Bool.not_eq_false] at h1
    by_cases h2 : s = .kInit
    · simp [h1, h2, RSOut.uthread]
    · by_cases h3 : s = .kExited
      · simp [h1, h2, h3, RSOut.uthread]
      · by_cases h4 : u.state = .kExited
        · simp [h1, h2, h3, h4, RSOut.uthread]
        · by_cases h5 : u.state = .kExiting
          · by_cases h6 : s = .kExiting <;>
              simp [h1, h2, h3, h4, h5, h6, RSOut.uthread]
          · have hpause :
                (if u.is_paused = true then (unpauseFn u).1 else u).state = u.state ∧
                (if u.is_paused = true then (unpauseFn u).1 else u).thread_exists
                  = u.thread_exists ∧
                (if u.is_paused = true then (unpauseFn u).1 else u).mpc = u.mpc ∧
                (if u.is_paused = true then
                  (unpauseFn u).1 else u).cycle_wait_skip_orig_state
                  = u.cycle_wait_skip_orig_state ∧
                (if u.is_paused = true then
                  (unpauseFn u).1 else u).cycle_wait_skip_count
                  = u.cycle_wait_skip_count ∧
                (if u.is_paused = true then (unpauseFn u).1 else u).cycle_wait_changed
                  = u.cycle_wait_changed ∧
                (if u.is_paused = true then (unpauseFn u).1 else u).requested_state
                  = u.requested_state := by
              rcases hp : u.is_paused <;>
                rcases hq : u.is_pause_pending <;>
                  simp_all [unpauseFn, h1]
            set u1 := if u.is_paused = true then (unpauseFn u).1 else u with hu1
            obtain ⟨k1, k2, k3, k4, k5, k6, k7⟩ := hpause
            simp only [h1, h2, h3, h4, h5, not_true, reduceIte]
            split
            · simp [RSOut.uthread, k1, k2, k3, k4, k5, k6, k7, h1]
            · split
              · simp [RSOut.uthread, k1, k2, k3, k4, k5, k6, h1]
              · split
                · unfold notifyGoCond
                  split <;>
                    simp [RSOut.uthread, k1, k2, k3, k4, k5, k6, h1, h2, h3]
                · split
                  · simp [RSOut.uthread, k1, k2, k3, k4, k5, k6, k7, h1]
                  · unfold notifyGoCond
                    split <;>
                      simp [RSOut.uthread, k1, k2, k3, k4, k5, k6, h1, h2, h3]

theorem notifyGoCond_fields (u : UThread) :
    (notifyGoCond u).state = u.state ∧
    (notifyGoCond u).requested_state = u.requested_state ∧
    (notifyGoCond u).mpc = u.mpc ∧
    (notifyGoCond u).thread_exists = u.thread_exists ∧
    (notifyGoCond u).cycle_wait_skip_orig_state = u.cycle_wait_skip_orig_state ∧
    (notifyGoCond u).cycle_wait_skip_count = u.cycle_wait_skip_count ∧
    (notifyGoCond u).cycle_wait_changed = u.cycle_wait_changed := by
  unfold notifyGoCond
  split <;> simp

theorem pauseFn_fields (u : UThread) :
    (pauseFn u).1.state = u.state ∧
    (pauseFn u).1.requested_state = u.requested_state ∧
    (pauseFn u).1.mpc = u.mpc ∧
    (pauseFn u).1.thread_exists = u.thread_exists ∧
    (pauseFn u).1.cycle_wait_skip_orig_state = u.cycle_wait_skip_orig_state ∧
    (pauseFn u).1.cycle_wait_skip_count = u.cycle_wait_skip_count ∧
    (pauseFn u).1.cycle_wait_changed = u.cycle_wait_changed := by
  unfold pauseFn
  split_ifs <;> simp

theorem unpauseFn_fields (u : UThread) :
    (unpauseFn u).1.state = u.state ∧
    (unpauseFn u).1.requested_state = u.requested_state ∧
    (unpauseFn u).1.mpc = u.mpc ∧
    (unpauseFn u).1.thread_exists = u.thread_exists ∧
    (unpauseFn u).1.cycle_wait_skip_orig_state = u.cycle_wait_skip_orig_state ∧
    (unpauseFn u).1.cycle_wait_skip_count = u.cycle_wait_skip_count ∧
    (unpauseFn u).1.cycle_wait_changed = u.cycle_wait_changed := by
  unfold unpauseFn
  split_ifs <;> simp

theorem Inv_congr2 (u v : UThread) (hI : Inv u)
    (h1 : v.cycle_wait_skip_orig_state = u.cycle_wait_skip_orig_state)
    (h2 : v.cycle_wait_skip_count = u.cycle_wait_skip_count)
    (h3 : v.cycle_wait_changed = u.cycle_wait_changed)
    (h4 : v.requested_state ≠ .kInit ∧ v.requested_state ≠ .kExited)
    (h5 : v.thread_exists = u.thread_exists)
    (h6 : v.mpc = u.mpc)
    (h7 : v.state = u.state) : Inv v := by
  constructor
  · rw [h1]; exact hI.skip_orig
  · rw [h2]; exact hI.skip_count
  · rw [h3]; exact hI.wait_changed
  · exact h4
  · rw [h5, h6]; exact hI.exists_iff
  · rw [h6, h7]; exact hI.not_started
  · rw [h6, h7]; exact hI.done_iff
  · rw [h6, h7]; exact hI.idle_mpc
  · rw [h6, h7]; exact hI.cycle_mpc
  · rw [h6, h7]; exact hI.invalid_state

/-- Soundness of one step: the reachability invariant is preserved and the
state obeys the (amended) monotonicity and edge discipline. -/
theorem step_sound (u v : UThread) (hI : Inv u) (h : Step u v) :
    Inv v ∧ StepSpec u v := by
  cases h with
  | start =>
    by_cases ht : u.thread_exists = true
    · have hv : (startFn u).1 = u := by simp [startFn, ht]
      rw [hv]
      exact ⟨hI, StepSpec_of_state_eq u u rfl⟩
    · simp only [Bool.not_eq_true] at ht
      have hv : (startFn u).1 =
          { u with
              state := .kInit, requested_state := .kIdle,
              thread_exists := true, mpc := .inBody } := by
        simp [startFn, ht]
      rw [hv]
      have hstate : u.state = .kInvalid ∨ u.state = .kExited := by
        rcases hI.exists_iff.mp ht with h | h
        · exact Or.inl (hI.not_started h)
        · exact Or.inr (hI.done_iff.mp h)
      refine ⟨⟨hI.skip_orig, hI.skip_count, hI.wait_changed,
        ⟨by simp, by simp⟩, by simp, by simp, by simp, by simp,
        by simp, by simp⟩, ?_, ?_, ?_⟩
      · intro hs
        rcases hstate with h | h <;> rw [hs] at h <;> cases h
      · intro hs
        exact Or.inr rfl
      · intro hne
        rcases hstate with h | h <;> rw [h] <;> rfl
  | request s t c =>
    obtain ⟨r1, r2, r3, r4, r5, r6, r7⟩ := requestState_record u s t c
    refine ⟨Inv_congr2 u _ hI r4 r5 r6 ?_ r2 r3 r1, StepSpec_of_state_eq u _ r1⟩
    rcases r7 with h | h | ⟨h, hs1, hs2⟩
    · rw [h]; exact hI.req_ok
    · rw [h]; exact ⟨by simp, by simp⟩
    · rw [h]; exact ⟨hs1, hs2⟩
  | requestLoopAgain s hv hs =>
    obtain ⟨n1, n2, n3, n4, n5, n6, n7⟩ :=
      notifyGoCond_fields { u with requested_state := s }
    refine ⟨Inv_congr2 u _ hI n5 n6 n7 ?_ n4 n3 n1, StepSpec_of_state_eq u _ n1⟩
    rw [n2]; exact hv
  | pause =>
    obtain ⟨p1, p2, p3, p4, p5, p6, p7⟩ := pauseFn_fields u
    exact ⟨Inv_congr u _ hI p5 p6 p7 p2 p4 p3 p1, StepSpec_of_state_eq u _ p1⟩
  | unpause =>
    obtain ⟨p1, p2, p3, p4, p5, p6, p7⟩ := unpauseFn_fields u
    exact ⟨Inv_congr u _ hI p5 p6 p7 p2 p4 p3 p1, StepSpec_of_state_eq u _ p1⟩
  | prepare hav =>
    exact ⟨Inv_congr u _ hI rfl rfl rfl rfl rfl rfl rfl,
      StepSpec_of_state_eq u _ rfl⟩
  | setCycleType t =>
    exact ⟨Inv_congr u _ hI rfl rfl rfl rfl rfl rfl rfl,
      StepSpec_of_state_eq u _ rfl⟩
  | setCyclePeriod p =>
    exact ⟨Inv_congr u _ hI rfl rfl rfl rfl rfl rfl rfl,
      StepSpec_of_state_eq u _ rfl⟩
  | join hj =>
    exact ⟨Inv_congr u _ hI rfl rfl rfl rfl rfl rfl rfl,
      StepSpec_of_state_eq u _ rfl⟩
  | procEnterStep now h1 h2 h3 =>
    have hm1 : u.mpc ≠ .notStarted := by rw [h1]; simp
    have hm2 : u.mpc ≠ .done := by rw [h1]; simp
    have hseg := procEnter_seg u now hI.skip_orig hI.wait_changed
    have hcyc : ∀ s : Int, (procEnter u now).mpc = .cycleParked s →
        u.state = .kInit ∨ u.state = .kGo := by
      intro s hs
      have h8 := hseg.2.2.2.2.2.2.2.1 s hs
      have hninv : u.state ≠ .kInvalid := fun hh => hm1 (hI.invalid_state hh)
      have hnex : u.state ≠ .kExited := fun hh => hm2 (hI.done_iff.mpr hh)
      rcases hst : u.state
      · exact absurd hst hninv
      · exact Or.inl rfl
      · exact Or.inr rfl
      · exact absurd hst h3
      · exact absurd hst h8.2
      · exact absurd hst hnex
    exact ⟨Inv_of_seg u _ hI hseg hm1 hm2 hcyc, StepSpec_of_seg u _ hI hseg hm1 hm2⟩
  | idleAwakeStep now h1 h2 =>
    have hm1 : u.mpc ≠ .notStarted := by rw [h1]; simp
    have hm2 : u.mpc ≠ .done := by rw [h1]; simp
    have hidle := hI.idle_mpc h1
    have hseg := idleAwake_seg u now hI.skip_orig (by rw [hidle]; simp)
    have hcyc : ∀ s : Int, (idleAwake u now).mpc = .cycleParked s →
        u.state = .kInit ∨ u.state = .kGo := by
      intro s hs
      rw [idleAwake_eq u now hI.skip_orig] at hs
      exact absurd hs (applyLoop_no_cyclePark _ s)
    exact ⟨Inv_of_seg u _ hI hseg hm1 hm2 hcyc, StepSpec_of_seg u _ hI hseg hm1 hm2⟩
  | cycleTimeoutStep s now h1 =>
    have hm1 : u.mpc ≠ .notStarted := by rw [h1]; simp
    have hm2 : u.mpc ≠ .done := by rw [h1]; simp
    have hseg := cycleWakeTimeout_seg u now
    have hcyc : ∀ s' : Int, (cycleWakeTimeout u now).mpc = .cycleParked s' →
        u.state = .kInit ∨ u.state = .kGo := fun s' _ => hI.cycle_mpc s h1
    exact ⟨Inv_of_seg u _ hI hseg hm1 hm2 hcyc, StepSpec_of_seg u _ hI hseg hm1 hm2⟩
  | cycleSignalStep s now h1 h2 =>
    have hm1 : u.mpc ≠ .notStarted := by rw [h1]; simp
    have hm2 : u.mpc ≠ .done := by rw [h1]; simp
    have hst : u.state ≠ .kExiting := by
      rcases hI.cycle_mpc s h1 with h | h <;> rw [h] <;> simp
    have hseg := cycleWakeSignalled_seg u now hI.skip_orig hI.wait_changed hst
    have hcyc : ∀ s' : Int, (cycleWakeSignalled u now).mpc = .cycleParked s' →
        u.state = .kInit ∨ u.state = .kGo := fun s' _ => hI.cycle_mpc s h1
    exact ⟨Inv_of_seg u _ hI hseg hm1 hm2 hcyc, StepSpec_of_seg u _ hI hseg hm1 hm2⟩
  | pauseWakeStep h1 h2 =>
    have hm1 : u.mpc ≠ .notStarted := by rw [h1]; simp
    have hm2 : u.mpc ≠ .done := by rw [h1]; simp
    have hseg := pauseWake_seg u
    have hcyc : ∀ s' : Int, (pauseWake u).mpc = .cycleParked s' →
        u.state = .kInit ∨ u.state = .kGo := by
      intro s' hs
      exact absurd hs (by simp [pauseWake])
    exact ⟨Inv_of_seg u _ hI hseg hm1 hm2 hcyc, StepSpec_of_seg u _ hI hseg hm1 hm2⟩
  | barrierReleaseStep handle res h1 =>
    have hm1 : u.mpc ≠ .notStarted := by rw [h1]; simp
    have hm2 : u.mpc ≠ .done := by rw [h1]; simp
    have hseg := barrierRelease_seg u handle
    have hcyc : ∀ s' : Int, (barrierRelease u handle).mpc = .cycleParked s' →
        u.state = .kInit ∨ u.state = .kGo := by
      intro s' hs
      rcases finishProc_mpc { u with multi_in_progress := false } handle with h | h <;>
        · rw [show (barrierRelease u handle).mpc
              = (finishProc { u with multi_in_progress := false } handle).mpc
              from rfl, h] at hs
          cases hs
    exact ⟨Inv_of_seg u _ hI hseg hm1 hm2 hcyc, StepSpec_of_seg u _ hI hseg hm1 hm2⟩
  | bodyReturnStep h1 h2 =>
    have hm1 : u.mpc ≠ .notStarted := by rw [h1]; simp
    have hm2 : u.mpc ≠ .done := by rw [h1]; simp
    have hnex : u.state ≠ .kExited := fun hh => hm2 (hI.done_iff.mpr hh)
    have hninv : u.state ≠ .kInvalid := fun hh => hm1 (hI.invalid_state hh)
    refine ⟨⟨hI.skip_orig, hI.skip_count, hI.wait_changed,
      hI.req_ok, ?_, by simp [bodyReturn, setStateInternal],
      ?_, by simp [bodyReturn, setStateInternal],
      by simp [bodyReturn, setStateInternal],
      by simp [bodyReturn, setStateInternal]⟩, ?_, ?_, ?_⟩
    · simp [bodyReturn, setStateInternal]
    · simp [bodyReturn, setStateInternal]
    · intro hs
      exact Or.inr rfl
    · intro hs
      exact absurd hs hnex
    · intro hne
      rcases hst : u.state
      · exact absurd hst hninv
      · rfl
      · rfl
      · rfl
      · rfl
      · exact absurd hst hnex

/-- Every reachable configuration satisfies the invariant. -/
theorem reachable_inv (u : UThread) (h : Reachable u) : Inv u := by
  induction h with
  | refl =>
    refine ⟨rfl, rfl, rfl, ⟨by decide, by decide⟩, by decide, by decide,
      by decide, by decide, ?_, by decide⟩
    intro s h
    exact absurd h (by simp [initial])
  | tail hab hbc ih => exact (step_sound _ _ ih hbc).1

theorem applyPhase_no_cyclePark (u : UThread) (s : Int) :
    (applyPhase u).mpc ≠ .cycleParked s := by
  rcases hm : u.multi_in_progress <;> rcases hp : u.is_pause_pending <;>
    rcases hreq : u.requested_state <;> rcases hs : u.state <;>
      simp_all [applyPhase, applyLoop, afterLoop, finishProc, pauseOrBody,
        setStateInternal]

/-! Claim theorems. -/

/-- C1, amended.  Terminal monotonicity of the `UThread` state machine over
every reachable configuration and every step: once `state` is kExiting it
only ever advances to kExited; once it is kExited it can change only by
being re-initialized to kInit through a fresh Start() on the released
handle; and every observable state change runs along a `codeEdgeB` edge —
the edges of the specification diagram plus the direct kInit exits
(kInit-kGo, kInit-kExiting, kInit-kExited), the spontaneous body-return
edges (kIdle-kExited, kGo-kExited), and the restart edge kExited-kInit. -/
theorem c1_state_monotonicity (u v : UThread) (hr : Reachable u)
    (hs : Step u v) :
    (u.state = .kExiting → v.state = .kExiting ∨ v.state = .kExited) ∧
    (u.state = .kExited → v.state = .kExited ∨ v.state = .kInit) ∧
    (u.state ≠ v.state → codeEdgeB u.state v.state = true) :=
  (step_sound u v (reachable_inv u hr) hs).2

/-- Witness for C1: the first Start() step from the freshly constructed
object. -/
theorem c1_state_monotonicity_witness :
    (UThread.initial.state = .kExiting →
      (startFn UThread.initial).1.state = .kExiting ∨
      (startFn UThread.initial).1.state = .kExited) ∧
    (UThread.initial.state = .kExited →
      (startFn UThread.initial).1.state = .kExited ∨
      (startFn UThread.initial).1.state = .kInit) ∧
    (UThread.initial.state ≠ (startFn UThread.initial).1.state →
      codeEdgeB UThread.initial.state (startFn UThread.initial).1.state
        = true) :=
  c1_state_monotonicity UThread.initial (startFn UThread.initial).1
    Relation.ReflTransGen.refl (Step.start UThread.initial)

/-- Counterexample for C1 as stated: a reachable step takes `state` from
kInit straight to kGo — an external Run() issued between Start() and the
first ProcState call (thread.cpp:344-349 records kGo while `state_` is
still kInit; thread.cpp:1327-1333 then applies it) — and kInit-kGo is not
among the spec-diagram edges. -/
theorem c1_counterexample :
    Reachable (requestState (startFn UThread.initial).1 .kGo 0 false).uthread ∧
    Step (requestState (startFn UThread.initial).1 .kGo 0 false).uthread
      (procEnter
        (requestState (startFn UThread.initial).1 .kGo 0 false).uthread 5) ∧
    (requestState (startFn UThread.initial).1 .kGo 0 false).uthread.state
      = .kInit ∧
    (procEnter
      (requestState (startFn UThread.initial).1 .kGo 0 false).uthread 5).state
      = .kGo ∧
    specClaimedEdge .kInit .kGo = false := by
  refine ⟨?_, ?_, ?_, ?_, ?_⟩
  · exact Relation.ReflTransGen.tail
      (Relation.ReflTransGen.tail Relation.ReflTransGen.refl
        (Step.start UThread.initial))
      (Step.request (startFn UThread.initial).1 .kGo 0 false)
  · exact Step.procEnterStep _ 5 (by decide) (by decide) (by decide)
  · decide
  · decide
  · decide

/-- C3, amended.  RunOneCycle never executes a checkpoint pass: RunNCycles
is explicitly disabled (thread.cpp:644-646), so RunOneCycle returns
NOT_IMPLEMENTED immediately — for every thread and both blocking modes —
and leaves the UThread record (in particular its state and cycle count)
completely unchanged. -/
theorem c3_runOneCycle_not_implemented (u : UThread) (block : Bool) :
    (runOneCycle u block).2.code = NOT_IMPLEMENTED_CODE ∧
    (runOneCycle u block).1 = u ∧
    (runOneCycle u block).1.state = u.state ∧
    (runOneCycle u block).1.cycle_count = u.cycle_count := by
  exact ⟨rfl, rfl, rfl, rfl⟩

/-- Counterexample for C3 as stated: a blocking RunOneCycle on a started,
Idle thread does not return success after one checkpoint pass; it returns
NOT_IMPLEMENTED at once, with the cycle count untouched and, a fortiori,
zero checkpoint passes executed. -/
theorem c3_counterexample :
    (runOneCycle
        { UThread.initial with
            thread_exists := true
            state := .kIdle
            mpc := .idleParked } true).2.code = NOT_IMPLEMENTED_CODE ∧
    NOT_IMPLEMENTED_CODE ≠ SUCCESS_CODE ∧
    (runOneCycle
        { UThread.initial with
            thread_exists := true
            state := .kIdle
            mpc := .idleParked } true).1.cycle_count = 0 := by
  exact ⟨rfl, by decide, rfl⟩

/-- C5.  UThread::Sleep on a started thread, called by the thread itself:
a timed sleep that is interrupted by a state request returns a result whose
code is SUCCESS (the bug: thread.cpp:1080-1083 forwards the SUCCESS of the
interrupted StateCondWaitFor through Result::Prepend, which preserves the
code), while the already-pending and indefinite cases return
INTERRUPTED_OPERATION as documented, and an uninterrupted timed sleep
returns plain SUCCESS. -/
theorem c5_sleep_interrupted_returns_success :
    (sleepFn { UThread.initial with thread_exists := true }
        5000000 true true).code = SUCCESS_CODE ∧
    (sleepFn { UThread.initial with thread_exists := true }
        5000000 true true).is_success = true ∧
    (sleepFn
        { UThread.initial with
            thread_exists := true
            requested_state := .kGo } 5000000 true true).code
      = INTERRUPTED_OPERATION_CODE ∧
    (sleepFn { UThread.initial with thread_exists := true }
        durationMin true true).code = INTERRUPTED_OPERATION_CODE ∧
    (sleepFn { UThread.initial with thread_exists := true }
        5000000 true false).code = SUCCESS_CODE := by
  refine ⟨by decide, by decide, by decide, by decide, by decide⟩

theorem prepend_code (r : Result) (m : String) :
    (r.prepend m).code = r.code := by
  unfold Result.prepend
  split <;> rfl

/-- C2, amended.  Results of RequestState on a started thread that is
kExiting or kExited: re-requesting kExiting while kExiting succeeds; any
other requestable target (neither kInit nor kExited, which fail argument
validation with INVALID_ARGUMENT before any state is examined,
thread.cpp:271-280) is refused with SHUTTING_DOWN while kExiting and with
RESOURCE_UNAVAILABLE while kExited (for as long as the native handle still
exists); and a repeat Exit() on an exited or already-joined thread is
treated as already-succeeded. -/
theorem c2_terminal_request_results (u : UThread) (s : TState) (t : Int)
    (c : Bool) (hte : u.thread_exists = true) :
    (u.state = .kExiting → s = .kExiting →
      requestState u s t c = .ret u SUCCESS) ∧
    (u.state = .kExiting → s ≠ .kExiting → s ≠ .kInit → s ≠ .kExited →
      (requestState u s t c).retCode = some SHUTTING_DOWN_CODE) ∧
    (s = .kInit ∨ s = .kExited →
      (requestState u s t c).retCode = some INVALID_ARGUMENT_CODE) ∧
    (u.state = .kExited → s ≠ .kInit → s ≠ .kExited →
      (requestState u s t c).retCode = some RESOURCE_UNAVAILABLE_CODE) ∧
    (u.state = .kExited → exitEntry u = .ret u SUCCESS) ∧
    (u.is_joined_with_thread = true → exitEntry u = .ret u SUCCESS) := by
  refine ⟨?_, ?_, ?_, ?_, ?_, ?_⟩
  · intro h1 h2
    subst h2
    unfold requestState
    simp [hte, h1]
  · intro h1 h2 h3 h4
    unfold requestState
    simp [hte, h1, h2, h3, h4, RSOut.retCode, prepend_code]
    decide
  · intro h1
    rcases h1 with h1 | h1 <;> subst h1 <;>
      · unfold requestState
        simp [hte, RSOut.retCode, prepend_code]
        decide
  · intro h1 h2 h3
    unfold requestState
    simp [hte, h1, h2, h3, RSOut.retCode, prepend_code]
    decide
  · intro h1
    unfold exitEntry
    split
    · rfl
    · simp [h1]
  · intro h1
    unfold exitEntry
    simp [h1]

/-- Witness for C2 at a started, exiting thread and the target kGo. -/
theorem c2_terminal_request_results_witness :
    (requestState
        { UThread.initial with thread_exists := true, state := .kExiting }
        .kGo 0 false).retCode = some SHUTTING_DOWN_CODE :=
  (c2_terminal_request_results
      { UThread.initial with thread_exists := true, state := .kExiting }
      .kGo 0 false rfl).2.1 rfl (by decide) (by decide) (by decide)

/-- Counterexample for C2 as stated: on a started, kExiting thread the
target kInit is not refused with the shutting-down error — argument
validation rejects it first with INVALID_ARGUMENT (thread.cpp:271-274). -/
theorem c2_counterexample :
    (requestState
        { UThread.initial with thread_exists := true, state := .kExiting }
        .kInit 0 false).retCode = some INVALID_ARGUMENT_CODE ∧
    (requestState
        { UThread.initial with thread_exists := true, state := .kExiting }
        .kInit 0 false).retCode ≠ some SHUTTING_DOWN_CODE := by
  exact ⟨by decide, by decide⟩

/-- C4, amended.  A blocking RequestState issued from the managed thread
itself never parks (never reaches a condition wait), and it fails with
DEADLOCK_AVERTED exactly when the request would otherwise have had to wait:
the thread is started, the target passes argument validation, the thread is
not kExiting/kExited, no pending exit request blocks it, and the target
differs from the current state.  In every other case the call returns the
corresponding early result (success or another failure), not the
deadlock-avoidance error. -/
theorem c4_blocking_self_request (u : UThread) (s : TState) :
    (requestState u s durationMin true).isWait = false ∧
    ((requestState u s durationMin true).retCode
        = some DEADLOCK_AVERTED_CODE ↔
      (u.thread_exists = true ∧ s ≠ .kInit ∧ s ≠ .kExited ∧
        u.state ≠ .kExited ∧ u.state ≠ .kExiting ∧
        (s = .kExiting ∨ (u.requested_state ≠ .kExiting ∧
          u.requested_state ≠ .kExited)) ∧
        s ≠ u.state)) := by
  unfold requestState
  by_cases h1 : u.thread_exists = false
  · simp [h1, RSOut.isWait, RSOut.retCode, prepend_code]
    decide
  · simp only [Bool.not_eq_false] at h1
    by_cases h2 : s = .kInit
    · simp [h1, h2, RSOut.isWait, RSOut.retCode, prepend_code]
      decide
    · by_cases h3 : s = .kExited
      · simp [h1, h2, h3, RSOut.isWait, RSOut.retCode, prepend_code]
        decide
      · by_cases h4 : u.state = .kExited
        · simp [h1, h2, h3, h4, RSOut.isWait, RSOut.retCode, prepend_code]
          decide
        · by_cases h5 : u.state = .kExiting
          · by_cases h6 : s = .kExiting <;>
              · simp [h1, h2, h3, h4, h5, h6, RSOut.isWait, RSOut.retCode,
                  prepend_code]
                decide
          · have hreqeq :
                (if u.is_paused = true then (unpauseFn u).1 else u).requested_state
                  = u.requested_state := by
              rcases hp : u.is_paused <;> simp_all [unpauseFn, h1]
            have hsteq :
                (if u.is_paused = true then (unpauseFn u).1 else u).state
                  = u.state := by
              rcases hp : u.is_paused <;> simp_all [unpauseFn, h1]
            set u1 := if u.is_paused = true then (unpauseFn u).1 else u with hu1
            simp only [h1, h2, h3, h4, h5, not_true, reduceIte]
            split
            next h7 =>
              simp only [Bool.and_eq_true, Bool.or_eq_true, decide_eq_true_eq,
                hreqeq] at h7
              refine ⟨rfl, ?_⟩
              simp only [RSOut.retCode, prepend_code]
              constructor
              · intro hc
                exfalso
                revert hc
                decide
              · rintro ⟨-, -, -, -, -, hdisj, -⟩
                exfalso
                rcases hdisj with hdisj | hdisj
                · exact h7.2 hdisj
                · rcases h7.1 with hx | hx
                  · exact hdisj.1 hx
                  · exact hdisj.2 hx
            next h7 =>
              split
              next h8 =>
                refine ⟨rfl, ?_⟩
                simp only [RSOut.retCode]
                constructor
                · intro hc
                  exfalso
                  revert hc
                  decide
                · rintro ⟨-, -, -, -, -, -, hne⟩
                  exact absurd (h8.trans hsteq) hne
              next h8 =>
                rw [if_neg (by decide : ¬(durationMin = (0 : Int)))]
                refine ⟨rfl, ?_⟩
                simp only [RSOut.retCode, prepend_code]
                constructor
                · intro _
                  refine ⟨trivial, h2, h3, h4, h5, ?_, ?_⟩
                  · by_cases hse : s = .kExiting
                    · exact Or.inl hse
                    · right
                      constructor <;> intro hx <;> apply h7 <;>
                        simp [hreqeq, hx, hse]
                  · intro hc
                    exact h8 (by rw [hsteq, ← hc])
                · intro _
                  decide


/-- Counterexample for C4 as stated: a blocking self-request whose target
equals the current state does not fail with the deadlock-avoidance error —
it returns plain SUCCESS from the cancel branch (thread.cpp:328-341), which
runs before the is_current_thread check (thread.cpp:358-363). -/
theorem c4_counterexample :
    (requestState exGo .kGo durationMin true).retCode = some SUCCESS_CODE ∧
    (requestState exGo .kGo durationMin true).retCode
      ≠ some DEADLOCK_AVERTED_CODE ∧
    (requestState exGo .kGo durationMin true).isWait = false := by
  exact ⟨by decide, by decide, by decide⟩

/-- C6, amended.  On a started thread in kIdle or kGo with no pending exit
request, requesting the state it is already in cancels any pending request
(requested_state becomes kInvalid) and returns SUCCESS without applying any
transition — the state, prev_state and the listener-invocation count are
untouched — and the matching ProcState branch (thread.cpp:1314-1320)
likewise clears the request without firing listeners. -/
theorem c6_request_current_state (u : UThread) (s : TState) (t : Int)
    (c : Bool) (hte : u.thread_exists = true)
    (hst : u.state = .kIdle ∨ u.state = .kGo)
    (hr1 : u.requested_state ≠ .kExiting) (hr2 : u.requested_state ≠ .kExited)
    (hs : s = u.state) :
    requestState u s t c =
      .ret { (if u.is_paused = true then (unpauseFn u).1 else u) with
          requested_state := .kInvalid } SUCCESS ∧
    (requestState u s t c).uthread.state = u.state ∧
    (requestState u s t c).uthread.prev_state = u.prev_state ∧
    (requestState u s t c).uthread.listener_fires = u.listener_fires ∧
    (∀ v : UThread, v.requested_state = v.state →
      (applyPhase v).state = v.state ∧
      (applyPhase v).listener_fires = v.listener_fires ∧
      (applyPhase v).requested_state = .kInvalid) := by
  have h2 : ¬s = TState.kInit := by rcases hst with h | h <;> simp [hs, h]
  have h3 : ¬s = TState.kExited := by rcases hst with h | h <;> simp [hs, h]
  have h4 : ¬u.state = TState.kExited := by rcases hst with h | h <;> simp [h]
  have h5 : ¬u.state = TState.kExiting := by rcases hst with h | h <;> simp [h]
  have hreqeq :
      (if u.is_paused = true then (unpauseFn u).1 else u).requested_state
        = u.requested_state := by
    rcases hp : u.is_paused <;> simp_all [unpauseFn]
  have hsteq :
      (if u.is_paused = true then (unpauseFn u).1 else u).state = u.state := by
    rcases hp : u.is_paused <;> simp_all [unpauseFn]
  have hpreveq :
      (if u.is_paused = true then (unpauseFn u).1 else u).prev_state
        = u.prev_state := by
    rcases hp : u.is_paused <;> simp_all [unpauseFn]
  have hlfeq :
      (if u.is_paused = true then (unpauseFn u).1 else u).listener_fires
        = u.listener_fires := by
    rcases hp : u.is_paused <;> simp_all [unpauseFn]
  have hmain : requestState u s t c =
      .ret { (if u.is_paused = true then (unpauseFn u).1 else u) with
          requested_state := .kInvalid } SUCCESS := by
    unfold requestState
    simp only [hte, h2, h3, h4, h5, not_true, reduceIte]
    rw [if_neg (by simp [hreqeq, hr1, hr2])]
    rw [if_pos (by rw [hsteq]; exact hs)]
  refine ⟨hmain, ?_, ?_, ?_, ?_⟩
  · rw [hmain]
    simpa [RSOut.uthread] using hsteq
  · rw [hmain]
    simpa [RSOut.uthread] using hpreveq
  · rw [hmain]
    simpa [RSOut.uthread] using hlfeq
  · intro v hv
    unfold applyPhase
    rw [if_pos hv]
    rcases hm : v.multi_in_progress <;> rcases hpp : v.is_pause_pending <;>
      simp_all [afterLoop, finishProc, pauseOrBody]

/-- Witness for C6: a started kGo thread, re-requesting kGo. -/
theorem c6_request_current_state_witness :
    requestState exGo .kGo 0 false =
      .ret { exGo with requested_state := .kInvalid } SUCCESS :=
  (c6_request_current_state exGo .kGo 0 false rfl (Or.inr rfl)
    (by decide) (by decide) rfl).1

/-- Counterexample for C6 as stated: on a started thread still in kInit
(with the kIdle request recorded by Start still pending), requesting the
current state kInit is rejected by argument validation with
INVALID_ARGUMENT, and the pending request is not cleared. -/
theorem c6_counterexample :
    (requestState exInitPending .kInit 0 false).retCode
      = some INVALID_ARGUMENT_CODE ∧
    (requestState exInitPending .kInit 0 false).retCode
      ≠ some SUCCESS_CODE ∧
    (requestState exInitPending .kInit 0 false).uthread.requested_state
      = .kIdle := by
  exact ⟨by decide, by decide, by decide⟩

/-- C10.  On a started, paused thread in a requestable state, any
RequestState whose target passes argument validation signals the unpause
condition (thread.cpp:311-314 invokes Unpause before the request is
recorded or applied), so the parked managed thread is released; its wake
(thread.cpp:1534-1536) then clears is_paused and completes the checkpoint.
Hence a state request never leaves the thread durably paused. -/
theorem c10_request_unpauses (u : UThread) (s : TState) (t : Int) (c : Bool)
    (hte : u.thread_exists = true) (hp : u.is_paused = true)
    (h4 : u.state ≠ .kExited) (h5 : u.state ≠ .kExiting)
    (hv1 : s ≠ .kInit) (hv2 : s ≠ .kExited) :
    (requestState u s t c).uthread.unpauseSignal = true ∧
    (pauseWake (requestState u s t c).uthread).is_paused = false ∧
    (pauseWake (requestState u s t c).uthread).mpc = .inBody := by
  have hu1 : (if u.is_paused = true then (unpauseFn u).1 else u)
      = { u with unpauseSignal := true } := by
    rw [if_pos hp]
    unfold unpauseFn
    simp [hte, hp]
  unfold requestState
  simp only [hte, hv1, hv2, h4, h5, not_true, reduceIte, hu1]
  refine ⟨?_, ?_, ?_⟩ <;>
  · split
    · simp [RSOut.uthread, pauseWake]
    · split
      · simp [RSOut.uthread, pauseWake]
      · split
        · unfold notifyGoCond
          split <;> simp [RSOut.uthread, pauseWake]
        · split
          · simp [RSOut.uthread, pauseWake]
          · unfold notifyGoCond
            split <;> simp [RSOut.uthread, pauseWake]

/-- Witness for C10: unpausing a paused kGo thread by requesting kIdle. -/
theorem c10_request_unpauses_witness :
    (requestState exPausedGo .kIdle 0 false).uthread.unpauseSignal = true ∧
    (pauseWake (requestState exPausedGo .kIdle 0 false).uthread).is_paused
      = false ∧
    (pauseWake (requestState exPausedGo .kIdle 0 false).uthread).mpc
      = .inBody :=
  c10_request_unpauses exPausedGo .kIdle 0 false rfl rfl
    (by decide) (by decide) (by decide) (by decide)

/-- C8.  A checkpoint of a thread participating in an in-flight
RequestStateMultiple never applies a pending kIdle request: the kIdle
branch (thread.cpp:1336-1350) converts the request to kGo, the thread
transitions to kGo and parks on the shared barrier, and it never parks on
the idle wait; in the application loop in general, a participating thread
never parks idle and never enters kIdle. -/
theorem c8_multi_idle_deferred (u : UThread) (now : Int)
    (hm : u.multi_in_progress = true)
    (hreq : u.requested_state = .kIdle)
    (hst : u.state ≠ .kExiting) (hid : u.state ≠ .kIdle)
    (ho : u.cycle_wait_skip_orig_state = .kInvalid) :
    (procEnter u now).state = .kGo ∧
    (procEnter u now).mpc = .barrierParked true .kContinue ∧
    (∀ v : UThread, v.multi_in_progress = true →
      v.requested_state = .kIdle →
      (applyLoop v).mpc ≠ .idleParked ∧
      ((applyLoop v).state = .kIdle → v.state = .kIdle)) := by
  have ho' : ({ u with cycle_count := u.cycle_count + 1 }
      : UThread).cycle_wait_skip_orig_state = .kInvalid := ho
  have hmain : procEnter u now =
      applyLoop
        { u with
            cycle_count := u.cycle_count + 1
            is_between_cycles := true } := by
    simp only [procEnter, skipPhase_through _ ho']
    rw [if_neg (show ¬({ u with cycle_count := u.cycle_count + 1 }
      : UThread).state = .kExiting by simpa using hst)]
    rw [if_neg (by simp [hreq])]
    unfold applyPhase
    rw [if_neg (by simpa [hreq] using fun hx => hid hx.symm)]
  refine ⟨?_, ?_, ?_⟩
  · rw [hmain]
    simp [applyLoop, hreq, hm, afterLoop, setStateInternal]
  · rw [hmain]
    simp [applyLoop, hreq, hm, afterLoop, setStateInternal]
  · intro v hm2 hreq2
    rcases hpp : v.is_pause_pending <;>
      simp_all [applyLoop, afterLoop, finishProc, pauseOrBody,
        setStateInternal]

/-- Witness for C8: a kGo participant with a concurrently recorded kIdle
request. -/
theorem c8_multi_idle_deferred_witness :
    (procEnter exMultiGo 7).state = .kGo ∧
    (procEnter exMultiGo 7).mpc = .barrierParked true .kContinue :=
  ⟨(c8_multi_idle_deferred exMultiGo 7 rfl rfl
      (by decide) (by decide) rfl).1,
   (c8_multi_idle_deferred exMultiGo 7 rfl rfl
      (by decide) (by decide) rfl).2.1⟩

/-- C9.  With cycle-wait type Absolute, a positive period P and no pending
request, the checkpoint parks for exactly P minus the time elapsed since
the post-sleep instant of the previous checkpoint (thread.cpp:1203-1210), and
parks not at all when that elapsed time has already reached P. -/
theorem c9_absolute_cycle_sleep (u : UThread) (now : Int)
    (htype : u.cycle_wait_type = .kAbsolute)
    (hp : u.cycle_wait_period > 0)
    (hreq : u.requested_state = .kInvalid)
    (hst : u.state ≠ .kExiting)
    (ho : u.cycle_wait_skip_orig_state = .kInvalid) :
    (now - u.prev_cycle_time_point < u.cycle_wait_period →
      (procEnter u now).mpc =
        .cycleParked (u.cycle_wait_period - (now - u.prev_cycle_time_point))) ∧
    (now - u.prev_cycle_time_point ≥ u.cycle_wait_period →
      ∀ s : Int, (procEnter u now).mpc ≠ .cycleParked s) := by
  have ho' : ({ u with cycle_count := u.cycle_count + 1 }
      : UThread).cycle_wait_skip_orig_state = .kInvalid := ho
  simp only [procEnter, skipPhase_through _ ho']
  rw [if_neg (show ¬({ u with cycle_count := u.cycle_count + 1 }
    : UThread).state = .kExiting by simpa using hst)]
  rw [if_pos (show ({ u with cycle_count := u.cycle_count + 1, is_between_cycles := true } : UThread).requested_state = .kInvalid from hreq)]
  rw [if_pos (by simp [hp])]
  constructor
  · intro hlt
    have hsl : cycleSleepPeriod
        { u with cycle_count := u.cycle_count + 1, is_between_cycles := true }
        now = u.cycle_wait_period - (now - u.prev_cycle_time_point) := by
      unfold cycleSleepPeriod
      rw [if_neg (by simp [htype])]
      rw [if_pos (show ({ u with cycle_count := u.cycle_count + 1, is_between_cycles := true } : UThread).cycle_wait_type = CycleWait.kAbsolute from htype)]
      rw [if_neg (show ¬now - u.prev_cycle_time_point ≥ u.cycle_wait_period by omega)]
    rw [hsl]
    rw [if_pos (by omega)]
  · intro hge s
    have hsl : cycleSleepPeriod
        { u with cycle_count := u.cycle_count + 1, is_between_cycles := true }
        now = 0 := by
      unfold cycleSleepPeriod
      rw [if_neg (by simp [htype])]
      rw [if_pos (show ({ u with cycle_count := u.cycle_count + 1, is_between_cycles := true } : UThread).cycle_wait_type = CycleWait.kAbsolute from htype)]
      rw [if_pos (show now - u.prev_cycle_time_point ≥ u.cycle_wait_period by omega)]
    rw [hsl]
    rw [if_neg (by simp)]
    exact applyPhase_no_cyclePark _ s

/-- Witness for C9: period 1000, elapsed 400 parks for 600; elapsed 1200
does not park. -/
theorem c9_absolute_cycle_sleep_witness :
    (procEnter exAbsolute 400).mpc = .cycleParked 600 ∧
    (∀ s : Int, (procEnter exAbsolute 1200).mpc ≠ .cycleParked s) :=
  ⟨by
    have h := (c9_absolute_cycle_sleep exAbsolute 400
      rfl (by decide) rfl (by decide) rfl).1 (by decide)
    simpa using h,
   (c9_absolute_cycle_sleep exAbsolute 1200
      rfl (by decide) rfl (by decide) rfl).2 (by decide)⟩

/-! Barrier protocol lemmas for RequestStateMultiple (C7). -/

theorem releaseAll_running_iff (p : Barrier.PPC) :
    Barrier.releaseAll p = Barrier.PPC.running ↔ p = Barrier.PPC.running := by
  cases p <;> simp [Barrier.releaseAll]

theorem runningCount_pos {n : Nat} (s : Barrier.Sys n) (i : Fin n)
    (hp : s.ppc i = .running) : 1 ≤ Barrier.runningCount s := by
  unfold Barrier.runningCount
  have : i ∈ Finset.univ.filter (fun j => s.ppc j = Barrier.PPC.running) := by
    simp [hp]
  exact Finset.card_pos.mpr ⟨i, this⟩

theorem runningCount_update_wait {n : Nat} (s : Barrier.Sys n) (i : Fin n)
    (hp : s.ppc i = .running) (c : Int) (p : Barrier.CPC) :
    Barrier.runningCount
        (⟨c, Function.update s.ppc i Barrier.PPC.waiting, p⟩ : Barrier.Sys n)
      = Barrier.runningCount s - 1 := by
  show (Finset.univ.filter
      (fun j => Function.update s.ppc i Barrier.PPC.waiting j
        = Barrier.PPC.running)).card = _
  unfold Barrier.runningCount
  have he : Finset.univ.filter
      (fun j => Function.update s.ppc i Barrier.PPC.waiting j
        = Barrier.PPC.running)
      = (Finset.univ.filter
          (fun j => s.ppc j = Barrier.PPC.running)).erase i := by
    ext j
    by_cases hj : j = i
    · subst hj
      simp [Function.update, hp]
    · simp [Function.update, hj]
  rw [he, Finset.card_erase_of_mem (by simp [hp])]

theorem runningCount_release {n : Nat} (s : Barrier.Sys n) (i : Fin n)
    (hp : s.ppc i = .running) (c : Int) (p : Barrier.CPC) :
    Barrier.runningCount
        (⟨c, fun j => if j = i then Barrier.PPC.released
          else Barrier.releaseAll (s.ppc j), p⟩ : Barrier.Sys n)
      = Barrier.runningCount s - 1 := by
  show (Finset.univ.filter
      (fun j => (if j = i then Barrier.PPC.released
        else Barrier.releaseAll (s.ppc j)) = Barrier.PPC.running)).card = _
  unfold Barrier.runningCount
  have he : Finset.univ.filter
      (fun j => (if j = i then Barrier.PPC.released
        else Barrier.releaseAll (s.ppc j)) = Barrier.PPC.running)
      = (Finset.univ.filter
          (fun j => s.ppc j = Barrier.PPC.running)).erase i := by
    ext j
    by_cases hj : j = i
    · subst hj
      simp
    · simp [hj, releaseAll_running_iff]
  rw [he, Finset.card_erase_of_mem (by simp [hp])]

theorem binv_start (n : Nat) : Barrier.BInv (Barrier.Sys.start n) := by
  constructor
  · simp [Barrier.Sys.start, Barrier.runningCount]
  · intro i h
    simp [Barrier.Sys.start] at h
  · intro h
    simp [Barrier.Sys.start] at h

theorem bstep_preserves {n : Nat} (s s' : Barrier.Sys n)
    (hI : Barrier.BInv s) (h : Barrier.BStep s s') : Barrier.BInv s' := by
  cases h with
  | coord hc =>
    unfold Barrier.coordWait
    split
    next hcount =>
      refine ⟨hI.count_eq, hI.rel_part, ?_⟩
      intro hrel
      exact absurd hrel (by simp)
    next hcount =>
      have hge : (0 : Int) ≤ s.count := by
        rw [hI.count_eq]
        exact Int.natCast_nonneg _
      have hz : s.count = 0 := by omega
      exact ⟨hI.count_eq, hI.rel_part, fun _ => hz⟩
  | arrive i hp hc =>
    have h1 : 1 ≤ Barrier.runningCount s := runningCount_pos s i hp
    have hnorel : ∀ j, s.ppc j ≠ Barrier.PPC.released := by
      intro j hj
      have hz := hI.rel_part j hj
      rw [hI.count_eq] at hz
      have : Barrier.runningCount s = 0 := by exact_mod_cast hz
      omega
    have hnocoord : s.cpc ≠ Barrier.CPC.released := by
      intro hj
      have hz := hI.rel_coord hj
      rw [hI.count_eq] at hz
      have : Barrier.runningCount s = 0 := by exact_mod_cast hz
      omega
    simp only [Barrier.arrive]
    split
    next hcz =>
      refine ⟨?_, ?_, ?_⟩
      · show s.count - 1 = _
        rw [runningCount_update_wait s i hp]
        rw [hI.count_eq]
        omega
      · intro j hj
        exfalso
        by_cases hji : j = i
        · subst hji
          simp [Function.update] at hj
        · simp [Function.update, hji] at hj
          exact hnorel j hj
      · intro hj
        exact absurd hj hnocoord
    next hcz =>
      have hc0 : s.count - 1 = 0 := by
        by_contra hne
        exact hcz hne
      refine ⟨?_, fun j _ => hc0, fun _ => hc0⟩
      · show s.count - 1 = _
        rw [runningCount_release s i hp]
        rw [hI.count_eq] at hc0 ⊢
        omega

theorem breach_inv (n : Nat) (s : Barrier.Sys n) (hr : Barrier.BReach n s) :
    Barrier.BInv s := by
  induction hr with
  | refl => exact binv_start n
  | tail hab hbc ih => exact bstep_preserves _ _ ih hbc

theorem prepareLoop_spec (ts : List UThread) :
    (prepareLoop ts).1.length + (prepareLoop ts).2.length = ts.length ∧
    ∀ t ∈ ts,
      (t.is_available = true → prepareMulti t ∈ (prepareLoop ts).1) ∧
      (t.is_available = false →
        ∃ r, (t, r) ∈ (prepareLoop ts).2 ∧ r.code = SHUTTING_DOWN_CODE) := by
  induction ts with
  | nil => simp [prepareLoop]
  | cons hd tl ih =>
    by_cases h : hd.is_available = true
    · constructor
      · simp only [prepareLoop, h, reduceIte, List.length_cons, List.length]
        omega
      · intro t ht
        rcases List.mem_cons.mp ht with ht | ht
        · subst ht
          constructor
          · intro _
            simp [prepareLoop, h]
          · intro hfalse
            rw [h] at hfalse
            cases hfalse
        · constructor
          · intro hav
            have := (ih.2 t ht).1 hav
            simp [prepareLoop, h]
            exact Or.inr this
          · intro hav
            have := (ih.2 t ht).2 hav
            simpa [prepareLoop, h] using this
    · have h' : hd.is_available = false := by
        rcases hv : hd.is_available
        · rfl
        · exact absurd hv h
      constructor
      · simp only [prepareLoop, h', Bool.false_eq_true, reduceIte,
          List.length_cons, List.length]
        omega
      · intro t ht
        rcases List.mem_cons.mp ht with ht | ht
        · subst ht
          constructor
          · intro hav
            rw [h'] at hav
            cases hav
          · intro _
            have hps : (prepareLoop (t :: tl)).2
                = (t, SHUTTING_DOWN.prepend
                    ("[RequestStateMultiple] Cannot set target thread state to Run,"
                      ++ " thread is exiting or has exited."))
                  :: (prepareLoop tl).2 := by
              simp [prepareLoop, h']
            rw [hps]
            exact ⟨_, List.mem_cons_self _ _, rfl⟩
        · constructor
          · intro hav
            have := (ih.2 t ht).1 hav
            simpa [prepareLoop, h'] using this
          · intro hav
            obtain ⟨r, hr1, hr2⟩ := (ih.2 t ht).2 hav
            refine ⟨r, ?_, hr2⟩
            simp [prepareLoop, h']
            exact Or.inr hr1

/-- C7.  Safety of the synchronized Go transition
(thread.cpp:452-562, 1410-1433): in every reachable configuration of the
barrier protocol, a participant that has returned from its barrier wait has
seen the shared pending count reach zero, at which point every participant
has decremented it; the coordinator likewise only proceeds past its wait
once every participant has decremented the count; and the preparation loop
partitions the target threads into barrier participants (the available
ones, activated via RequestStateMultiple_Prepare) and recorded
SHUTTING_DOWN failures (those already exiting or exited). -/
theorem c7_request_state_multiple_barrier (n : Nat) (s : Barrier.Sys n)
    (hr : Barrier.BReach n s) :
    (∀ i, s.ppc i = .released →
      s.count = 0 ∧ ∀ j, s.ppc j ≠ Barrier.PPC.running) ∧
    (s.cpc = .released →
      s.count = 0 ∧ ∀ j, s.ppc j ≠ Barrier.PPC.running) ∧
    (∀ ts : List UThread,
      (prepareLoop ts).1.length + (prepareLoop ts).2.length = ts.length ∧
      ∀ t ∈ ts,
        (t.is_available = true → prepareMulti t ∈ (prepareLoop ts).1) ∧
        (t.is_available = false →
          ∃ r, (t, r) ∈ (prepareLoop ts).2 ∧
            r.code = SHUTTING_DOWN_CODE)) := by
  have hI := breach_inv n s hr
  have hall : s.count = 0 → ∀ j, s.ppc j ≠ Barrier.PPC.running := by
    intro hz j hj
    rw [hI.count_eq] at hz
    have h0 : Barrier.runningCount s = 0 := by exact_mod_cast hz
    exact absurd h0 (by
      have := runningCount_pos s j hj
      omega)
  refine ⟨?_, ?_, fun ts => prepareLoop_spec ts⟩
  · intro i hi
    have hz := hI.rel_part i hi
    exact ⟨hz, hall hz⟩
  · intro hc
    have hz := hI.rel_coord hc
    exact ⟨hz, hall hz⟩

/-- Witness for C7: the two-participant barrier at its start configuration,
and the preparation loop on one available and one exiting thread. -/
theorem c7_request_state_multiple_barrier_witness :
    (prepareLoop [exGo, exExiting]).1.length
      + (prepareLoop [exGo, exExiting]).2.length = 2 :=
  ((c7_request_state_multiple_barrier 2 (Barrier.Sys.start 2)
    Relation.ReflTransGen.refl).2.2 [exGo, exExiting]).1

end UThread

end Evo
